import Mathlib

/-!
Shallow embedding of the graphnet truth-extraction subsystem
(src/graphnet/data/extractors/i3truthextractor.py and i3extractor.py).

Numeric values are modelled with rationals.  The only place where IEEE
floating-point behaviour is observable to the claims is the NaN check on a
particle energy (`energy != energy`), so energies carry an explicit NaN
constructor.  Calls into external libraries (numpy trigonometry, matplotlib
polygon containment, icecube distance computation) are modelled as opaque
function parameters collected in `MathCtx`; the theorems are stated for every
such backend and the witnesses instantiate a concrete one.
-/

/-- A Python float as observed by the source: either an ordinary (finite)
value, modelled as a rational, or NaN.  The source's only NaN-sensitive
operation is the self-inequality test `x != x`. -/
inductive PFloat
  | nan
  | val (q : ℚ)
deriving DecidableEq, Repr

/-- Python `+` on floats: NaN propagates, finite values add exactly. -/
def PFloat.add : PFloat → PFloat → PFloat
  | .val a, .val b => .val (a + b)
  | _, _ => .nan

/-- IEEE `!=`: true whenever either side is NaN, otherwise value inequality.
The source uses `e != e` as its NaN test. -/
def PFloat.ieeeNe : PFloat → PFloat → Bool
  | .val a, .val b => decide (a ≠ b)
  | _, _ => true

/-- A value stored in the flat truth-output dictionary: a number (possibly
NaN) or the simulation-type string. -/
inductive Val
  | num (x : PFloat)
  | str (s : String)
deriving DecidableEq, Repr

/-- A finite numeric dictionary value. -/
def qVal (q : ℚ) : Val := .num (.val q)

/-- Python `int(...)` of a boolean filter flag, as stored in the output. -/
def boolVal (b : Bool) : Val := qVal (if b then 1 else 0)

/-- 3-D position of a particle (`particle.pos`). -/
structure Pos where
  x : ℚ
  y : ℚ
  z : ℚ
deriving DecidableEq, Repr

/-- icecube particle-type tag; the source only ever compares against
`dataclasses.I3Particle.Hadrons`. -/
inductive ParticleType
  | Hadrons
  | other (code : ℤ)
deriving DecidableEq, Repr

/-- An icecube `I3Particle` as read by the source.  Particles are value-like
records (spec section 3); `id` models the particle identity used by the tree
to answer daughter lookups.  `azimuth`/`zenith` flatten `particle.dir`, and
`shape` holds the `str(particle.shape)` tag. -/
structure Particle where
  id : ℕ
  energy : PFloat
  pos : Pos
  azimuth : ℚ
  zenith : ℚ
  pdg_encoding : ℤ
  length : ℚ
  total_energy : ℚ
  ptype : ParticleType
  shape : String
deriving DecidableEq, Repr

/-- The Monte-Carlo particle tree `frame["I3MCTree"]`: indexable entries,
the list of primaries, and the daughters of a particle (keyed by particle
identity, value-like results as in the icecube Python bindings). -/
structure MCTree where
  nodes : List Particle
  primaries : List Particle
  daughtersMap : List (ℕ × List Particle)
deriving DecidableEq, Repr

/-- `mctree.get_daughters(p)`. -/
def MCTree.getDaughters (t : MCTree) (p : Particle) : List Particle :=
  (t.daughtersMap.lookup p.id).getD []

/-- `frame["I3EventHeader"]`, with `utc_daq_time` standing for
`header.start_time.utc_daq_time`. -/
structure I3EventHeader where
  run_id : ℤ
  sub_run_id : ℤ
  event_id : ℤ
  sub_event_id : ℤ
  sub_event_stream : String
  utc_daq_time : ℤ
deriving DecidableEq, Repr

/-- One physics frame (event record) as consumed by the truth extractor.
Optional keyed entries are `Option`s; `none` models the key being absent from
the frame.  `is_mc` and `is_noise` hold the results of
`frame_is_montecarlo(frame)` and `frame_is_noise(frame)` — those helpers live
in `graphnet.data.extractors.utilities`, outside the sources at hand, and the
extractor consumes them only as booleans.  `interactionType` models
`frame["I3MCWeightDict"]["InteractionType"]` (absent if either lookup raises
KeyError) and `genieY` models `frame["I3GENIEResultDict"]["y"]` likewise. -/
structure Frame where
  header : I3EventHeader
  is_mc : Bool
  is_noise : Bool
  filterMask : Option (List (String × Bool))
  deepCoreFilter13 : Option Bool
  l3_oscNext : Option Bool
  l4_oscNext : Option Bool
  l5_oscNext : Option Bool
  l6_oscNext : Option Bool
  l7_oscNext : Option Bool
  mcInIcePrimary : Option Particle
  i3MCTree : Option MCTree
  interactionType : Option ℚ
  genieY : Option ℚ
deriving DecidableEq, Repr

/-- Fiducial borders: `[border_xy, border_z]` from the constructor. -/
structure Borders where
  xy : List (ℚ × ℚ)
  zrange : ℚ × ℚ
deriving DecidableEq, Repr

/-- Python exception kinds that can escape the embedded code. -/
inductive Err
  | keyError (k : String)
  | indexError
  | attributeError
  | typeError
deriving DecidableEq, Repr

instance {e a : Type} [DecidableEq e] [DecidableEq a] :
    DecidableEq (Except e a) := fun x y =>
  match x, y with
  | .ok v, .ok w =>
    if h : v = w then isTrue (by rw [h]) else isFalse (by simp [h])
  | .error v, .error w =>
    if h : v = w then isTrue (by rw [h]) else isFalse (by simp [h])
  | .ok _, .error _ => isFalse (by simp)
  | .error _, .ok _ => isFalse (by simp)

/-- Mutable state of an `I3TruthExtractor` instance: `_i3_file`/`_gcd_file`
are `None` until `set_files` is called.  The geometry/calibration data loaded
from the GCD file is never read by the truth extractor, so only the file
references are kept. -/
structure I3TruthExtractorState where
  i3File : Option String
  gcdFile : Option String
  borders : Borders
  name : String
deriving DecidableEq, Repr

/-- The hard-coded 28-vertex detector outline and depth range from
`I3TruthExtractor.__init__`. -/
def defaultBorders : Borders :=
  { xy := [ (-256.1400146484375, -521.0800170898438),
            (-132.8000030517578, -501.45001220703125),
            (-9.13000011444092, -481.739990234375),
            (114.38999938964844, -461.989990234375),
            (237.77999877929688, -442.4200134277344),
            (361.0, -422.8299865722656),
            (405.8299865722656, -306.3800048828125),
            (443.6000061035156, -194.16000366210938),
            (500.42999267578125, -58.45000076293945),
            (544.0700073242188, 55.88999938964844),
            (576.3699951171875, 170.9199981689453),
            (505.2699890136719, 257.8800048828125),
            (429.760009765625, 351.0199890136719),
            (338.44000244140625, 463.7200012207031),
            (224.5800018310547, 432.3500061035156),
            (101.04000091552734, 412.7900085449219),
            (22.11000061035156, 509.5),
            (-101.05999755859375, 490.2200012207031),
            (-224.08999633789062, 470.8599853515625),
            (-347.8800048828125, 451.5199890136719),
            (-392.3800048828125, 334.239990234375),
            (-437.0400085449219, 217.8000030517578),
            (-481.6000061035156, 101.38999938964844),
            (-526.6300048828125, -15.60000038146973),
            (-570.9000244140625, -125.13999938964844),
            (-492.42999267578125, -230.16000366210938),
            (-413.4599914550781, -327.2699890136719),
            (-334.79998779296875, -424.5) ],
    zrange := (-512.82, 524.56) }

/-- `I3TruthExtractor.__init__(name, borders)` composed with
`I3Extractor.__init__`: no files set yet, borders default unless given. -/
def i3TruthExtractorInit (name : String) (borders : Option Borders) :
    I3TruthExtractorState :=
  { i3File := none, gcdFile := none,
    borders := borders.getD defaultBorders, name := name }

/-- `I3Extractor.set_files(i3_file, gcd_file)`; the GCD geometry/calibration
load only touches fields the truth extractor never reads. -/
def setFiles (ex : I3TruthExtractorState) (i3_file gcd_file : String) :
    I3TruthExtractorState :=
  { ex with i3File := some i3_file, gcdFile := some gcd_file }

/-- Opaque external mathematics backend: numpy trigonometry, the matplotlib
`Path(poly).contains_point(pt, radius)` test (negative radius shrinks the
usable area, spec section 4.4), and
`phys_services.I3Calculator.distance` (3-D Euclidean distance of the two
particle positions). -/
structure MathCtx where
  cos : ℚ → ℚ
  sin : ℚ → ℚ
  dist : Pos → Pos → ℚ
  containsPoint : List (ℚ × ℚ) → ℚ × ℚ → ℚ → Bool

/-- `icetray.I3Units.m`: the meter is icetray's base length unit. -/
def I3Units_m : ℚ := 1

/-- Python substring containment `needle in hay`. -/
def listIsInfix (needle : List Char) : List Char → Bool
  | [] => needle.isEmpty
  | c :: t => needle.isPrefixOf (c :: t) || listIsInfix needle t

/-- Python `needle in hay` on strings. -/
def pyContains (needle hay : String) : Bool := listIsInfix needle.data hay.data

/-- Python `s.lower()` (the paths at hand are ASCII); written as a
structural per-character map so that proofs can evaluate it. -/
def pyLower (s : String) : String := String.mk (s.data.map Char.toLower)

/-- The ordered substring rules of `_find_data_type` (lines 377-386), used to
state the last-match-wins reading of the classifier. -/
def simTypeRules : List ((String → Bool) × String) :=
  [ (fun f => pyContains "muon" f, "muongun"),
    (fun f => pyContains "corsika" f, "corsika"),
    (fun f => pyContains "genie" f || pyContains "nu" (pyLower f), "genie"),
    (fun f => pyContains "noise" f, "noise"),
    (fun f => pyContains "L2" f, "dbang") ]

/-- Last-match-wins reading of the classifier, written from the spec's
description in section 4.2: start from data/NuGen, then fold the rules in
order, each match overriding the accumulated tag. -/
def findDataTypeSpec (mc : Bool) (f : String) : String :=
  simTypeRules.foldl (fun acc r => if r.1 f then r.2 else acc)
    (if !mc then "data" else "NuGen")

/-- `I3TruthExtractor._find_data_type(mc, input_file)` (lines 362-389).
`input_file` is `self._i3_file`, which is `None` before `set_files`; Python
then raises `TypeError: argument of type 'NoneType' is not iterable` at the
first substring test.  The final `if sim_type == "lol"` only logs. -/
def findDataType (mc : Bool) (input_file : Option String) :
    Except Err String :=
  match input_file with
  | none => .error .typeError
  | some f =>
    let sim_type := if !mc then "data" else "NuGen"
    let sim_type := if pyContains "muon" f then "muongun" else sim_type
    let sim_type := if pyContains "corsika" f then "corsika" else sim_type
    let sim_type :=
      if pyContains "genie" f || pyContains "nu" (pyLower f) then "genie"
      else sim_type
    let sim_type := if pyContains "noise" f then "noise" else sim_type
    let sim_type := if pyContains "L2" f then "dbang" else sim_type
    .ok sim_type

/-- The flat output record: an ordered dictionary from field names to
values, as built by `__call__`. -/
def Output : Type := List (String × Val)

instance : DecidableEq Output := by unfold Output; infer_instance

/-- Python dictionary assignment `d[k] = v`: replace the value at the first
occurrence of the key in insertion order, or append if the key is new (all
assignments in the source hit existing keys). -/
def setKey : Output → String → Val → Output
  | [], k, v => [(k, v)]
  | (k', v') :: rest, k, v =>
    if k' == k then (k', v) :: rest else (k', v') :: setKey rest k v

/-- Python `d.update(kvs)`: apply the assignments in order. -/
def updAll (o : Output) (kvs : List (String × Val)) : Output :=
  kvs.foldl (fun acc kv => setKey acc kv.1 kv.2) o

/-- The fixed 29-field schema of the truth output (spec section 6). -/
def truthFieldKeys : List String :=
  [ "energy", "position_x", "position_y", "position_z", "azimuth", "zenith",
    "pid", "event_time", "sim_type", "interaction_type", "elasticity",
    "RunID", "SubrunID", "EventID", "SubEventID", "dbang_decay_length",
    "track_length", "stopped_muon", "energy_track", "inelasticity",
    "DeepCoreFilter_13", "CascadeFilter_13", "MuonFilter_13",
    "OnlineL2Filter_17", "L3_oscNext_bool", "L4_oscNext_bool",
    "L5_oscNext_bool", "L6_oscNext_bool", "L7_oscNext_bool" ]

/-- The initial `output` dictionary literal of `__call__` (lines 71-101):
header ids, start time and sim type populated, everything else at the
padding value. -/
def initOutput (frame : Frame) (sim_type : String) (padding_value : ℚ) :
    Output :=
  [ ("energy", qVal padding_value),
    ("position_x", qVal padding_value),
    ("position_y", qVal padding_value),
    ("position_z", qVal padding_value),
    ("azimuth", qVal padding_value),
    ("zenith", qVal padding_value),
    ("pid", qVal padding_value),
    ("event_time", qVal (frame.header.utc_daq_time : ℚ)),
    ("sim_type", Val.str sim_type),
    ("interaction_type", qVal padding_value),
    ("elasticity", qVal padding_value),
    ("RunID", qVal (frame.header.run_id : ℚ)),
    ("SubrunID", qVal (frame.header.sub_run_id : ℚ)),
    ("EventID", qVal (frame.header.event_id : ℚ)),
    ("SubEventID", qVal (frame.header.sub_event_id : ℚ)),
    ("dbang_decay_length", qVal padding_value),
    ("track_length", qVal padding_value),
    ("stopped_muon", qVal padding_value),
    ("energy_track", qVal padding_value),
    ("inelasticity", qVal padding_value),
    ("DeepCoreFilter_13", qVal padding_value),
    ("CascadeFilter_13", qVal padding_value),
    ("MuonFilter_13", qVal padding_value),
    ("OnlineL2Filter_17", qVal padding_value),
    ("L3_oscNext_bool", qVal padding_value),
    ("L4_oscNext_bool", qVal padding_value),
    ("L5_oscNext_bool", qVal padding_value),
    ("L6_oscNext_bool", qVal padding_value),
    ("L7_oscNext_bool", qVal padding_value) ]

/-- One `if key_source present: output[k] = int(value)` step. -/
def condSet (o : Output) (x : Option Bool) (k : String) : Output :=
  match x with
  | some b => setKey o k (boolVal b)
  | none => o

/-- Lines 109-128: the filter block.  When `"FilterMask"` is in the frame,
each of the four mask entries is copied if present; only when the mask is
entirely absent is the legacy top-level `"DeepCoreFilter_13"` consulted
(`int(bool(...))` of it). -/
def applyFilterMask (frame : Frame) (o : Output) : Output :=
  match frame.filterMask with
  | some mask =>
    let o := condSet o (mask.lookup "DeepCoreFilter_13") "DeepCoreFilter_13"
    let o := condSet o (mask.lookup "CascadeFilter_13") "CascadeFilter_13"
    let o := condSet o (mask.lookup "MuonFilter_13") "MuonFilter_13"
    condSet o (mask.lookup "OnlineL2Filter_17") "OnlineL2Filter_17"
  | none => condSet o frame.deepCoreFilter13 "DeepCoreFilter_13"

/-- Lines 130-143: the five oscNext level booleans, each copied from the
top-level frame key when present. -/
def applyOscNext (frame : Frame) (o : Output) : Output :=
  let o := condSet o frame.l3_oscNext "L3_oscNext_bool"
  let o := condSet o frame.l4_oscNext "L4_oscNext_bool"
  let o := condSet o frame.l5_oscNext "L5_oscNext_bool"
  let o := condSet o frame.l6_oscNext "L6_oscNext_bool"
  condSet o frame.l7_oscNext "L7_oscNext_bool"

/-- Primary resolution inside
`_get_primary_particle_interaction_type_and_elasticity` (lines 306-316):
prefer `frame["MCInIcePrimary"]`, on KeyError fall back to
`frame["I3MCTree"][0]`; then, whatever the origin, if the candidate's energy
is NaN (`energy != energy`) replace it by `frame["I3MCTree"][1]`.  Failed
tree lookups escape as KeyError/IndexError. -/
def resolvePrimary (frame : Frame) : Except Err Particle :=
  let step1 : Except Err Particle :=
    match frame.mcInIcePrimary with
    | some p => .ok p
    | none =>
      match frame.i3MCTree with
      | none => .error (.keyError "I3MCTree")
      | some t =>
        match t.nodes.get? 0 with
        | none => .error .indexError
        | some p => .ok p
  match step1 with
  | .error e => .error e
  | .ok p =>
    if p.energy.ieeeNe p.energy then
      match frame.i3MCTree with
      | none => .error (.keyError "I3MCTree")
      | some t =>
        match t.nodes.get? 1 with
        | none => .error .indexError
        | some p1 => .ok p1
    else .ok p

/-- `frame["I3MCWeightDict"]["InteractionType"]` with KeyError defaulting. -/
def interactionTypeOf (frame : Frame) (padding_value : ℚ) : ℚ :=
  frame.interactionType.getD padding_value

/-- `frame["I3GENIEResultDict"]["y"]` with KeyError defaulting. -/
def elasticityOf (frame : Frame) (padding_value : ℚ) : ℚ :=
  frame.genieY.getD padding_value

/-- `_get_primary_particle_interaction_type_and_elasticity` (lines 287-329).
For non-noise sim types the primary is resolved (exceptions there escape);
for noise the primary is Python `None`.  Interaction type and elasticity are
read independently, each defaulting to the function's own padding value. -/
def getPrimaryEtc (frame : Frame) (sim_type : String) (padding_value : ℚ) :
    Except Err (Option Particle × ℚ × ℚ) :=
  if sim_type ≠ "noise" then
    match resolvePrimary frame with
    | .error e => .error e
    | .ok p =>
      .ok (some p, interactionTypeOf frame padding_value,
        elasticityOf frame padding_value)
  else
    .ok (none, interactionTypeOf frame padding_value,
      elasticityOf frame padding_value)

/-- `_get_primary_track_energy_and_inelasticity` (lines 331-359).  Rational
division makes the unguarded `energy_total = 0` case yield 0 where Python
floats would give an infinity; the source leaves that case undefined (spec
section 7) and no claim depends on it. -/
def getPrimaryTrackEnergyAndInelasticity (frame : Frame) :
    Except Err (ℚ × ℚ) :=
  match frame.i3MCTree with
  | none => .error (.keyError "I3MCTree")
  | some mc_tree =>
    match mc_tree.primaries[0]? with
    | none => .error .indexError
    | some primary =>
      let daughters := mc_tree.getDaughters primary
      let tracks := daughters.filter
        (fun d => d.shape == "StartingTrack" || d.shape == "Dark")
      let energy_total := primary.total_energy
      let energy_track := (tracks.map (fun t => t.total_energy)).sum
      let inelasticity := 1 - energy_track / energy_total
      .ok (energy_track, inelasticity)

/-- The `for p_daughter in p_daughters` classification loop (lines 201-205):
the last Hadrons daughter becomes `casc_0_true`, the last non-Hadrons
daughter becomes `hnl_true`; `none` models the Python name staying unbound
(a later use raises NameError, swallowed by the bare except). -/
def classifyDaughters (ds : List Particle) :
    Option Particle × Option Particle :=
  ds.foldl
    (fun acc d =>
      if d.ptype = ParticleType.Hadrons then (some d, acc.2)
      else (acc.1, some d))
    (none, none)

/-- The merge loop over `hnl_daughters` (lines 212-221): the first daughter
seeds `casc_1_true`; every later daughter must sit at the same position
(`assert`) and contributes its energy to the local copy.  `none` models an
AssertionError. -/
def mergeDaughters : Particle → List Particle → Option Particle
  | c1, [] => some c1
  | c1, d :: rest =>
    if c1.pos = d.pos then
      mergeDaughters { c1 with energy := c1.energy.add d.energy } rest
    else none

/-- The try-block body of `_extract_dbang_decay_length` (lines 197-231):
`none` models an exception swallowed by the bare except (IndexError on an
empty primaries list, NameError from an unbound `casc_0_true`/`hnl_true`,
AssertionError from the position check); `some` is the computed
`decay_length`, which is the padding value when the daughter count is not
two or the candidate has no daughters of its own. -/
def dbangTry (m : MathCtx) (mctree : MCTree) (padding_value : ℚ) :
    Option ℚ :=
  match mctree.primaries[0]? with
  | none => none
  | some p_true =>
    if (mctree.getDaughters p_true).length = 2 then
      match (classifyDaughters (mctree.getDaughters p_true)).2 with
      | none => none
      | some hnl_true =>
        match mctree.getDaughters hnl_true with
        | [] => some padding_value
        | h :: rest =>
          match mergeDaughters h rest with
          | none => none
          | some casc_1_true =>
            match (classifyDaughters (mctree.getDaughters p_true)).1 with
            | none => none
            | some casc_0_true =>
              some (m.dist casc_0_true.pos casc_1_true.pos / I3Units_m)
    else some padding_value

/-- `_extract_dbang_decay_length` (lines 195-233).  The `frame["I3MCTree"]`
lookup on line 196 sits outside the try block, so a missing tree raises; the
rest of the body is `dbangTry` under a bare except that turns every failure
into the padding value.  Particles returned by `get_daughters` are
value-like copies, so the local energy-sum never reaches the tree; the frame
is threaded through unchanged to make that observable. -/
def extractDbangDecayLength (m : MathCtx) (frame : Frame)
    (padding_value : ℚ) : Except Err ℚ × Frame :=
  match frame.i3MCTree with
  | none => (.error (.keyError "I3MCTree"), frame)
  | some mctree =>
    match dbangTry m mctree padding_value with
    | some v => (.ok v, frame)
    | none => (.ok padding_value, frame)

/-- The dictionary returned by `_muon_stopped`. -/
structure MuonFinal where
  x : ℚ
  y : ℚ
  z : ℚ
  stopped : Bool
deriving DecidableEq, Repr

/-- Reading a numeric entry out of the output dictionary, as the source does
with `truth["position_x"]` etc.; the keys read are always finite numbers at
the call sites, so the fallback 0 is unreachable. -/
def lookupQ (o : Output) (k : String) : ℚ :=
  match List.lookup k o with
  | some (.num (.val q)) => q
  | _ => 0

/-- `_muon_stopped(truth, borders, horizontal_pad, vertical_pad)`
(lines 235-285): project from the recorded vertex along
`-track_length * (cos az * sin zen, sin az * sin zen, cos zen)` and test the
end point against the polygon shrunk by `horizontal_pad` (matplotlib radius
`-horizontal_pad`) and the strictly-shrunk depth range. -/
def muonStopped (m : MathCtx) (truth : Output) (borders : Borders)
    (horizontal_pad vertical_pad : ℚ) : MuonFinal :=
  let sx := lookupQ truth "position_x"
  let sy := lookupQ truth "position_y"
  let sz := lookupQ truth "position_z"
  let tl := lookupQ truth "track_length"
  let az := lookupQ truth "azimuth"
  let zen := lookupQ truth "zenith"
  let endx := sx + -(tl * m.cos az * m.sin zen)
  let endy := sy + -(tl * m.sin az * m.sin zen)
  let endz := sz + -(tl * m.cos zen)
  let stopped_xy := m.containsPoint borders.xy (endx, endy) (-horizontal_pad)
  let stopped_z :=
    decide (endz > borders.zrange.1 + vertical_pad) &&
    decide (endz < borders.zrange.2 - vertical_pad)
  { x := endx, y := endy, z := endz, stopped := stopped_xy && stopped_z }

/-- The update dictionary literal of lines 157-174: the Monte-Carlo truth
fields written after the primary, interaction type, elasticity, decay
length, track energy and inelasticity have been computed. -/
def mcUpdateList (prim : Particle)
    (interaction_type elasticity dbang_decay_length energy_track
      inelasticity : ℚ) : List (String × Val) :=
  [ ("energy", Val.num prim.energy),
    ("position_x", qVal prim.pos.x),
    ("position_y", qVal prim.pos.y),
    ("position_z", qVal prim.pos.z),
    ("azimuth", qVal prim.azimuth),
    ("zenith", qVal prim.zenith),
    ("pid", qVal (prim.pdg_encoding : ℚ)),
    ("interaction_type", qVal interaction_type),
    ("elasticity", qVal elasticity),
    ("dbang_decay_length", qVal dbang_decay_length),
    ("energy_track", qVal energy_track),
    ("inelasticity", qVal inelasticity) ]

/-- The update dictionary literal of lines 182-191: the muon final position
and stopping flag. -/
def muonUpdateList (mf : MuonFinal) : List (String × Val) :=
  [ ("position_x", qVal mf.x),
    ("position_y", qVal mf.y),
    ("position_z", qVal mf.z),
    ("stopped_muon", boolVal mf.stopped) ]

/-- The `abs(output["pid"]) == 13` test (line 175); `"pid"` was assigned a
finite number two lines earlier, so the non-numeric fallback is dead. -/
def pidIs13 (o : Output) : Bool :=
  match List.lookup "pid" o with
  | some (.num (.val q)) => decide (|q| = 13)
  | _ => false

/-- `I3TruthExtractor.__call__(frame, padding_value)` (lines 65-193).  The
frame is threaded through to surface any mutation of caller-owned data; the
first component is the produced output record or the Python exception that
escapes.  `_get_primary_particle_interaction_type_and_elasticity` is invoked
without a padding argument, so it uses its own default of `-1` regardless of
the caller's `padding_value`.  When the resolved primary is Python `None`
(path-classified noise), evaluating `MCInIcePrimary.energy` for the update
dictionary raises AttributeError before the decay-length call runs. -/
def truthExtract (m : MathCtx) (ex : I3TruthExtractorState) (frame : Frame)
    (padding_value : ℚ) : Except Err Output × Frame :=
  match findDataType frame.is_mc ex.i3File with
  | .error e => (.error e, frame)
  | .ok sim_type =>
    let output := initOutput frame sim_type padding_value
    if frame.header.sub_event_stream ≠ "InIceSplit" then (.ok output, frame)
    else
      let output := applyOscNext frame (applyFilterMask frame output)
      if frame.is_mc && !frame.is_noise then
        match getPrimaryEtc frame sim_type (-1) with
        | .error e => (.error e, frame)
        | .ok (prim?, interaction_type, elasticity) =>
          match getPrimaryTrackEnergyAndInelasticity frame with
          | .error e => (.error e, frame)
          | .ok (energy_track, inelasticity) =>
            match prim? with
            | none => (.error .attributeError, frame)
            | some prim =>
              match extractDbangDecayLength m frame padding_value with
              | (.error e, frame2) => (.error e, frame2)
              | (.ok dbang_decay_length, frame2) =>
                let output := updAll output
                  (mcUpdateList prim interaction_type elasticity
                    dbang_decay_length energy_track inelasticity)
                if pidIs13 output then
                  let output := setKey output "track_length"
                    (qVal prim.length)
                  let mf := muonStopped m output ex.borders 100 100
                  let output := updAll output (muonUpdateList mf)
                  (.ok output, frame2)
                else (.ok output, frame2)
      else (.ok output, frame)

/-- Structural preconditions in the Monte-Carlo truth phase under which no
lookup in `__call__` raises: a non-noise path classification, a particle
tree with at least one primary, a resolvable primary particle, and a second
tree entry when the NaN fallback fires. -/
def wellFormedMC (sim_type : String) (frame : Frame) : Bool :=
  decide (sim_type ≠ "noise") &&
  match frame.i3MCTree with
  | none => false
  | some t =>
    !t.primaries.isEmpty &&
    match frame.mcInIcePrimary with
    | some p => !(p.energy.ieeeNe p.energy) || t.nodes[1]?.isSome
    | none =>
      match t.nodes[0]? with
      | none => false
      | some p0 => !(p0.energy.ieeeNe p0.energy) || t.nodes[1]?.isSome

/-- A well-formed invocation: the extractor has a file context (so the
sim-type classifier succeeds) and, when the Monte-Carlo truth phase runs,
its structural preconditions hold. -/
def wellFormed (ex : I3TruthExtractorState) (frame : Frame) : Bool :=
  match findDataType frame.is_mc ex.i3File with
  | .error _ => false
  | .ok sim_type => !(frame.is_mc && !frame.is_noise) || wellFormedMC sim_type frame

/-! ## Dictionary lemmas -/

theorem lookup_setKey_self (o : Output) (k : String) (v : Val) :
    List.lookup k (setKey o k v) = some v := by
  induction o with
  | nil => simp [setKey, List.lookup]
  | cons kv rest ih =>
    obtain ⟨k', v'⟩ := kv
    by_cases h : k' = k
    · subst h
      simp [setKey, List.lookup]
    · have hb : (k' == k) = false := beq_eq_false_iff_ne.mpr h
      have hb2 : (k == k') = false := beq_eq_false_iff_ne.mpr (Ne.symm h)
      simp only [setKey, hb, if_false, List.lookup, hb2]
      exact ih

theorem lookup_setKey_ne (o : Output) (k₁ k₂ : String) (v : Val)
    (h : k₁ ≠ k₂) :
    List.lookup k₁ (setKey o k₂ v) = List.lookup k₁ o := by
  induction o with
  | nil =>
    have hb : (k₁ == k₂) = false := beq_eq_false_iff_ne.mpr h
    simp [setKey, List.lookup, hb]
  | cons kv rest ih =>
    obtain ⟨k', v'⟩ := kv
    by_cases hk : k' = k₂
    · subst hk
      have hb : (k₁ == k') = false := beq_eq_false_iff_ne.mpr h
      simp [setKey, List.lookup, hb]
    · have hb : (k' == k₂) = false := beq_eq_false_iff_ne.mpr hk
      simp only [setKey, hb, if_false]
      cases hbb : (k₁ == k') with
      | true => simp [List.lookup, hbb]
      | false => simp [List.lookup, hbb, ih]

theorem keysOf_setKey_mem (o : Output) (k : String) (v : Val)
    (h : k ∈ o.map Prod.fst) :
    (setKey o k v).map Prod.fst = o.map Prod.fst := by
  induction o with
  | nil => simp at h
  | cons kv rest ih =>
    obtain ⟨k', v'⟩ := kv
    by_cases hk : k' = k
    · subst hk
      simp [setKey]
    · have hb : (k' == k) = false := beq_eq_false_iff_ne.mpr hk
      simp only [List.map_cons, List.mem_cons] at h
      rcases h with h | h
      · exact absurd h.symm hk
      · simp [setKey, hb, ih h]

theorem lookup_append {α β : Type} [BEq α] (l₁ l₂ : List (α × β)) (a : α) :
    List.lookup a (l₁ ++ l₂) =
      (List.lookup a l₁).elim (List.lookup a l₂) some := by
  induction l₁ with
  | nil => simp [List.lookup]
  | cons x t ih =>
    obtain ⟨k', v'⟩ := x
    cases h : a == k' <;> simp [List.lookup, h, ih]

theorem lookup_updAll (kvs : List (String × Val)) (o : Output) (k : String) :
    List.lookup k (updAll o kvs) =
      (List.lookup k kvs.reverse).elim (List.lookup k o) some := by
  induction kvs generalizing o with
  | nil => simp [updAll]
  | cons kv rest ih =>
    obtain ⟨k₀, v₀⟩ := kv
    show List.lookup k (updAll (setKey o k₀ v₀) rest) = _
    rw [ih, List.reverse_cons, lookup_append]
    cases hres : List.lookup k rest.reverse with
    | some v => simp
    | none =>
      simp only [Option.elim]
      by_cases hk : k = k₀
      · subst hk
        simp [List.lookup, lookup_setKey_self]
      · have hb : (k == k₀) = false := beq_eq_false_iff_ne.mpr hk
        simp [List.lookup, hb, lookup_setKey_ne _ _ _ _ hk]

theorem keysOf_updAll (kvs : List (String × Val)) (o : Output)
    (h : ∀ k ∈ kvs.map Prod.fst, k ∈ o.map Prod.fst) :
    (updAll o kvs).map Prod.fst = o.map Prod.fst := by
  induction kvs generalizing o with
  | nil => rfl
  | cons kv rest ih =>
    obtain ⟨k₀, v₀⟩ := kv
    have h₀ : k₀ ∈ o.map Prod.fst := h k₀ (by simp)
    have hkeys := keysOf_setKey_mem o k₀ v₀ h₀
    show (updAll (setKey o k₀ v₀) rest).map Prod.fst = _
    rw [ih _ (fun k hk => by rw [hkeys]; exact h k (by simp [hk]))]
    exact hkeys

theorem lookup_condSet_ne (o : Output) (x : Option Bool) (k₁ k₂ : String)
    (h : k₁ ≠ k₂) :
    List.lookup k₁ (condSet o x k₂) = List.lookup k₁ o := by
  cases x <;> simp [condSet, lookup_setKey_ne _ _ _ _ h]

theorem lookup_condSet_self (o : Output) (x : Option Bool) (k : String) :
    List.lookup k (condSet o x k) =
      x.elim (List.lookup k o) (fun b => some (boolVal b)) := by
  cases x <;> simp [condSet, lookup_setKey_self]

theorem keysOf_condSet (o : Output) (x : Option Bool) (k : String)
    (h : k ∈ o.map Prod.fst) :
    (condSet o x k).map Prod.fst = o.map Prod.fst := by
  cases x <;> simp [condSet, keysOf_setKey_mem _ _ _ h]

theorem keysOf_condSet_schema (o : Output) (x : Option Bool) (k : String)
    (hk : k ∈ truthFieldKeys) (h : o.map Prod.fst = truthFieldKeys) :
    (condSet o x k).map Prod.fst = truthFieldKeys := by
  rw [keysOf_condSet _ _ _ (by rw [h]; exact hk)]
  exact h

theorem keysOf_setKey_schema (o : Output) (k : String) (v : Val)
    (hk : k ∈ truthFieldKeys) (h : o.map Prod.fst = truthFieldKeys) :
    (setKey o k v).map Prod.fst = truthFieldKeys := by
  rw [keysOf_setKey_mem _ _ _ (by rw [h]; exact hk)]
  exact h

theorem keysOf_updAll_schema (kvs : List (String × Val)) (o : Output)
    (hsub : ∀ k ∈ kvs.map Prod.fst, k ∈ truthFieldKeys)
    (h : o.map Prod.fst = truthFieldKeys) :
    (updAll o kvs).map Prod.fst = truthFieldKeys := by
  rw [keysOf_updAll _ _ (fun k hk => by rw [h]; exact hsub k hk)]
  exact h

theorem keysOf_applyFilterMask (fr : Frame) (o : Output)
    (h : o.map Prod.fst = truthFieldKeys) :
    (applyFilterMask fr o).map Prod.fst = truthFieldKeys := by
  cases hm : fr.filterMask with
  | none =>
    simp only [applyFilterMask, hm]
    exact keysOf_condSet_schema _ _ _ (by decide) h
  | some mask =>
    simp only [applyFilterMask, hm]
    exact keysOf_condSet_schema _ _ _ (by decide)
      (keysOf_condSet_schema _ _ _ (by decide)
        (keysOf_condSet_schema _ _ _ (by decide)
          (keysOf_condSet_schema _ _ _ (by decide) h)))

theorem keysOf_applyOscNext (fr : Frame) (o : Output)
    (h : o.map Prod.fst = truthFieldKeys) :
    (applyOscNext fr o).map Prod.fst = truthFieldKeys := by
  simp only [applyOscNext]
  exact keysOf_condSet_schema _ _ _ (by decide)
    (keysOf_condSet_schema _ _ _ (by decide)
      (keysOf_condSet_schema _ _ _ (by decide)
        (keysOf_condSet_schema _ _ _ (by decide)
          (keysOf_condSet_schema _ _ _ (by decide) h))))

theorem keysOf_initOutput (fr : Frame) (st : String) (p : ℚ) :
    (initOutput fr st p).map Prod.fst = truthFieldKeys := rfl

/-- The two-run padding relation of spec property 7: at every key, either
both runs hold their respective padding values, or they hold the same
computed value. -/
def PadRel (p q : ℚ) (o₁ o₂ : Output) : Prop :=
  ∀ k : String,
    (List.lookup k o₁ = some (qVal p) ∧ List.lookup k o₂ = some (qVal q)) ∨
    List.lookup k o₁ = List.lookup k o₂

theorem padRel_nil (p q : ℚ) : PadRel p q [] [] := fun _ => Or.inr rfl

theorem padRel_cons_eq {p q : ℚ} {o₁ o₂ : Output} (k₀ : String) (v : Val)
    (h : PadRel p q o₁ o₂) :
    PadRel p q ((k₀, v) :: o₁) ((k₀, v) :: o₂) := by
  intro k
  cases hb : (k == k₀) with
  | true => exact Or.inr (by simp [List.lookup, hb])
  | false =>
    rcases h k with ⟨h₁, h₂⟩ | h₁
    · exact Or.inl ⟨by simp [List.lookup, hb, h₁], by simp [List.lookup, hb, h₂]⟩
    · exact Or.inr (by simp [List.lookup, hb, h₁])

theorem padRel_cons_pad {p q : ℚ} {o₁ o₂ : Output} (k₀ : String)
    (h : PadRel p q o₁ o₂) :
    PadRel p q ((k₀, qVal p) :: o₁) ((k₀, qVal q) :: o₂) := by
  intro k
  cases hb : (k == k₀) with
  | true => exact Or.inl ⟨by simp [List.lookup, hb], by simp [List.lookup, hb]⟩
  | false =>
    rcases h k with ⟨h₁, h₂⟩ | h₁
    · exact Or.inl ⟨by simp [List.lookup, hb, h₁], by simp [List.lookup, hb, h₂]⟩
    · exact Or.inr (by simp [List.lookup, hb, h₁])

theorem padRel_setKey_eq {p q : ℚ} {o₁ o₂ : Output} (k₀ : String) (v : Val)
    (h : PadRel p q o₁ o₂) :
    PadRel p q (setKey o₁ k₀ v) (setKey o₂ k₀ v) := by
  intro k
  by_cases hk : k = k₀
  · subst hk
    exact Or.inr (by rw [lookup_setKey_self, lookup_setKey_self])
  · rw [lookup_setKey_ne _ _ _ _ hk, lookup_setKey_ne _ _ _ _ hk]
    exact h k

theorem padRel_setKey_pad {p q : ℚ} {o₁ o₂ : Output} (k₀ : String)
    (h : PadRel p q o₁ o₂) :
    PadRel p q (setKey o₁ k₀ (qVal p)) (setKey o₂ k₀ (qVal q)) := by
  intro k
  by_cases hk : k = k₀
  · subst hk
    exact Or.inl ⟨lookup_setKey_self _ _ _, lookup_setKey_self _ _ _⟩
  · rw [lookup_setKey_ne _ _ _ _ hk, lookup_setKey_ne _ _ _ _ hk]
    exact h k

theorem padRel_condSet {p q : ℚ} {o₁ o₂ : Output} (x : Option Bool)
    (k₀ : String) (h : PadRel p q o₁ o₂) :
    PadRel p q (condSet o₁ x k₀) (condSet o₂ x k₀) := by
  cases x with
  | none => exact h
  | some b => exact padRel_setKey_eq k₀ (boolVal b) h

theorem padRel_applyFilterMask {p q : ℚ} {o₁ o₂ : Output} (fr : Frame)
    (h : PadRel p q o₁ o₂) :
    PadRel p q (applyFilterMask fr o₁) (applyFilterMask fr o₂) := by
  cases hm : fr.filterMask with
  | none =>
    simp only [applyFilterMask, hm]
    exact padRel_condSet _ _ h
  | some mask =>
    simp only [applyFilterMask, hm]
    exact padRel_condSet _ _ (padRel_condSet _ _
      (padRel_condSet _ _ (padRel_condSet _ _ h)))

theorem padRel_applyOscNext {p q : ℚ} {o₁ o₂ : Output} (fr : Frame)
    (h : PadRel p q o₁ o₂) :
    PadRel p q (applyOscNext fr o₁) (applyOscNext fr o₂) := by
  simp only [applyOscNext]
  exact padRel_condSet _ _ (padRel_condSet _ _ (padRel_condSet _ _
    (padRel_condSet _ _ (padRel_condSet _ _ h))))

theorem padRel_initOutput (fr : Frame) (st : String) (p q : ℚ) :
    PadRel p q (initOutput fr st p) (initOutput fr st q) := by
  unfold initOutput
  apply padRel_cons_pad
  apply padRel_cons_pad
  apply padRel_cons_pad
  apply padRel_cons_pad
  apply padRel_cons_pad
  apply padRel_cons_pad
  apply padRel_cons_pad
  apply padRel_cons_eq
  apply padRel_cons_eq
  apply padRel_cons_pad
  apply padRel_cons_pad
  apply padRel_cons_eq
  apply padRel_cons_eq
  apply padRel_cons_eq
  apply padRel_cons_eq
  apply padRel_cons_pad
  apply padRel_cons_pad
  apply padRel_cons_pad
  apply padRel_cons_pad
  apply padRel_cons_pad
  apply padRel_cons_pad
  apply padRel_cons_pad
  apply padRel_cons_pad
  apply padRel_cons_pad
  apply padRel_cons_pad
  apply padRel_cons_pad
  apply padRel_cons_pad
  apply padRel_cons_pad
  apply padRel_cons_pad
  exact padRel_nil p q

/-! ## Component lemmas -/

theorem findDataType_some (mc : Bool) (f : String) :
    findDataType mc (some f) = .ok (findDataTypeSpec mc f) := rfl

theorem dbang_frame (m : MathCtx) (fr : Frame) (p : ℚ) :
    (extractDbangDecayLength m fr p).2 = fr := by
  cases htree : fr.i3MCTree with
  | none => simp [extractDbangDecayLength, htree]
  | some t =>
    cases hd : dbangTry m t p <;>
      simp [extractDbangDecayLength, htree, hd]

theorem dbang_ok (m : MathCtx) (fr : Frame) (p : ℚ) (t : MCTree)
    (h : fr.i3MCTree = some t) :
    ∃ v, (extractDbangDecayLength m fr p).1 = Except.ok v := by
  cases hd : dbangTry m t p with
  | none => exact ⟨p, by simp [extractDbangDecayLength, h, hd]⟩
  | some v => exact ⟨v, by simp [extractDbangDecayLength, h, hd]⟩

theorem dbangTry_pairs (m : MathCtx) (t : MCTree) (p q : ℚ) :
    (dbangTry m t p = some p ∧ dbangTry m t q = some q) ∨
    dbangTry m t p = dbangTry m t q := by
  unfold dbangTry
  split
  · exact Or.inr rfl
  · split
    · split
      · exact Or.inr rfl
      · split
        · exact Or.inl ⟨rfl, rfl⟩
        · split
          · exact Or.inr rfl
          · split
            · exact Or.inr rfl
            · exact Or.inr rfl
    · exact Or.inl ⟨rfl, rfl⟩

theorem dbang_pairs (m : MathCtx) (fr : Frame) (p q : ℚ) :
    ((extractDbangDecayLength m fr p).1 = .ok p ∧
     (extractDbangDecayLength m fr q).1 = .ok q) ∨
    (extractDbangDecayLength m fr p).1 = (extractDbangDecayLength m fr q).1 := by
  cases htree : fr.i3MCTree with
  | none => exact Or.inr (by simp [extractDbangDecayLength, htree])
  | some t =>
    rcases dbangTry_pairs m t p q with ⟨h₁, h₂⟩ | h
    · exact Or.inl ⟨by simp [extractDbangDecayLength, htree, h₁],
        by simp [extractDbangDecayLength, htree, h₂]⟩
    · cases hd : dbangTry m t q with
      | none =>
        rw [hd] at h
        exact Or.inl ⟨by simp [extractDbangDecayLength, htree, h],
          by simp [extractDbangDecayLength, htree, hd]⟩
      | some v =>
        rw [hd] at h
        exact Or.inr (by simp [extractDbangDecayLength, htree, h, hd])

theorem resolvePrimary_named_ok (fr : Frame) (pr : Particle)
    (h : fr.mcInIcePrimary = some pr)
    (hn : pr.energy.ieeeNe pr.energy = false) :
    resolvePrimary fr = .ok pr := by
  simp [resolvePrimary, h, hn]

theorem resolvePrimary_named_nan (fr : Frame) (pr p1 : Particle)
    (t : MCTree) (h : fr.mcInIcePrimary = some pr)
    (hn : pr.energy.ieeeNe pr.energy = true)
    (ht : fr.i3MCTree = some t) (h1 : t.nodes[1]? = some p1) :
    resolvePrimary fr = .ok p1 := by
  simp [resolvePrimary, h, hn, ht, h1]

theorem resolvePrimary_tree_ok (fr : Frame) (p0 : Particle) (t : MCTree)
    (h : fr.mcInIcePrimary = none) (ht : fr.i3MCTree = some t)
    (h0 : t.nodes[0]? = some p0)
    (hn : p0.energy.ieeeNe p0.energy = false) :
    resolvePrimary fr = .ok p0 := by
  simp [resolvePrimary, h, ht, h0, hn]

theorem resolvePrimary_tree_nan (fr : Frame) (p0 p1 : Particle) (t : MCTree)
    (h : fr.mcInIcePrimary = none) (ht : fr.i3MCTree = some t)
    (h0 : t.nodes[0]? = some p0)
    (hn : p0.energy.ieeeNe p0.energy = true)
    (h1 : t.nodes[1]? = some p1) :
    resolvePrimary fr = .ok p1 := by
  simp [resolvePrimary, h, ht, h0, hn, h1]

theorem getPrimaryEtc_noise (fr : Frame) (pad : ℚ) :
    getPrimaryEtc fr "noise" pad =
      .ok (none, interactionTypeOf fr pad, elasticityOf fr pad) := by
  simp [getPrimaryEtc]

theorem getPrimaryEtc_of_resolve (fr : Frame) (st : String) (pad : ℚ)
    (pr : Particle) (hst : st ≠ "noise")
    (hres : resolvePrimary fr = .ok pr) :
    getPrimaryEtc fr st pad =
      .ok (some pr, interactionTypeOf fr pad, elasticityOf fr pad) := by
  simp [getPrimaryEtc, hst, hres]

theorem resolvePrimary_ok_of_wfMC (st : String) (fr : Frame)
    (h : wellFormedMC st fr = true) : ∃ pr, resolvePrimary fr = .ok pr := by
  unfold wellFormedMC at h
  rw [Bool.and_eq_true] at h
  obtain ⟨hst, h⟩ := h
  cases ht : fr.i3MCTree with
  | none => rw [ht] at h; exact absurd h (by simp)
  | some t =>
    rw [ht] at h
    rw [Bool.and_eq_true] at h
    obtain ⟨-, h⟩ := h
    cases hp : fr.mcInIcePrimary with
    | some pr =>
      rw [hp] at h
      replace h : (!(pr.energy.ieeeNe pr.energy) || t.nodes[1]?.isSome)
          = true := h
      cases hn : pr.energy.ieeeNe pr.energy with
      | false => exact ⟨pr, resolvePrimary_named_ok fr pr hp hn⟩
      | true =>
        rw [hn] at h
        simp only [Bool.not_true, Bool.false_or,
          Option.isSome_iff_exists] at h
        obtain ⟨p1, h1⟩ := h
        exact ⟨p1, resolvePrimary_named_nan fr pr p1 t hp hn ht h1⟩
    | none =>
      rw [hp] at h
      replace h : (match t.nodes[0]? with
          | none => false
          | some p0 =>
            !(p0.energy.ieeeNe p0.energy) || t.nodes[1]?.isSome) = true := h
      cases h0 : t.nodes[0]? with
      | none => rw [h0] at h; exact absurd h (by simp)
      | some p0 =>
        rw [h0] at h
        replace h : (!(p0.energy.ieeeNe p0.energy) || t.nodes[1]?.isSome)
            = true := h
        cases hn : p0.energy.ieeeNe p0.energy with
        | false => exact ⟨p0, resolvePrimary_tree_ok fr p0 t hp ht h0 hn⟩
        | true =>
          rw [hn] at h
          simp only [Bool.not_true, Bool.false_or,
            Option.isSome_iff_exists] at h
          obtain ⟨p1, h1⟩ := h
          exact ⟨p1, resolvePrimary_tree_nan fr p0 p1 t hp ht h0 hn h1⟩

theorem wfMC_sim_type (st : String) (fr : Frame)
    (h : wellFormedMC st fr = true) : st ≠ "noise" := by
  unfold wellFormedMC at h
  rw [Bool.and_eq_true] at h
  exact of_decide_eq_true h.1

theorem wfMC_tree (st : String) (fr : Frame)
    (h : wellFormedMC st fr = true) :
    ∃ t, fr.i3MCTree = some t ∧ t.primaries ≠ [] := by
  unfold wellFormedMC at h
  rw [Bool.and_eq_true] at h
  obtain ⟨-, h⟩ := h
  cases ht : fr.i3MCTree with
  | none => rw [ht] at h; exact absurd h (by simp)
  | some t =>
    rw [ht] at h
    rw [Bool.and_eq_true] at h
    refine ⟨t, rfl, ?_⟩
    have := h.1
    simpa [List.isEmpty_iff] using this

theorem getTrack_ok (fr : Frame) (t : MCTree) (ht : fr.i3MCTree = some t)
    (hp : t.primaries ≠ []) :
    ∃ r, getPrimaryTrackEnergyAndInelasticity fr = .ok r := by
  obtain ⟨a, l, hl⟩ : ∃ a l, t.primaries = a :: l := by
    cases hl : t.primaries with
    | nil => exact absurd hl hp
    | cons a l => exact ⟨a, l, rfl⟩
  cases hv : getPrimaryTrackEnergyAndInelasticity fr with
  | ok r => exact ⟨r, rfl⟩
  | error e =>
    simp [getPrimaryTrackEnergyAndInelasticity, ht, hl] at hv

/-! ## Claim theorems -/

/-- Claim C3: for every Monte-Carlo flag and file path the classifier
returns one of the seven fixed tags, it is exactly the last-match-wins fold
of the ordered substring rules started from data/NuGen, and a path
containing both corsika and muon (and no later-rule substring) classifies as
corsika. -/
theorem claim_C3_sim_type_classifier :
    (∀ (mc : Bool) (f : String),
      findDataType mc (some f) = .ok (findDataTypeSpec mc f)) ∧
    (∀ (mc : Bool) (f : String),
      findDataTypeSpec mc f ∈
        ["data", "NuGen", "muongun", "corsika", "genie", "noise", "dbang"]) ∧
    (∀ mc : Bool,
      findDataType mc (some "this_corsika_and_muon_path.i3") =
        .ok "corsika") := by
  refine ⟨fun mc f => findDataType_some mc f, ?_, ?_⟩
  · intro mc f
    cases mc <;>
      (unfold findDataTypeSpec simTypeRules
       simp only [List.foldl]
       split_ifs <;> decide)
  · intro mc
    cases mc <;> decide

/-- Claim C2: when the header's sub-event-stream tag is not InIceSplit the
extractor returns the initial record unchanged: every physics and filter
field still carries the padding value and only event time, sim type and the
four header ids are populated. -/
theorem claim_C2_non_inice_split (m : MathCtx) (ex : I3TruthExtractorState)
    (fr : Frame) (p : ℚ) (path : String)
    (hctx : ex.i3File = some path)
    (hstream : fr.header.sub_event_stream ≠ "InIceSplit") :
    truthExtract m ex fr p =
      (.ok (initOutput fr (findDataTypeSpec fr.is_mc path) p), fr) ∧
    (∀ k ∈ ["energy", "position_x", "position_y", "position_z", "azimuth",
        "zenith", "pid", "interaction_type", "elasticity",
        "dbang_decay_length", "track_length", "stopped_muon", "energy_track",
        "inelasticity", "DeepCoreFilter_13", "CascadeFilter_13",
        "MuonFilter_13", "OnlineL2Filter_17", "L3_oscNext_bool",
        "L4_oscNext_bool", "L5_oscNext_bool", "L6_oscNext_bool",
        "L7_oscNext_bool"],
      List.lookup k (initOutput fr (findDataTypeSpec fr.is_mc path) p) =
        some (qVal p)) ∧
    List.lookup "event_time"
        (initOutput fr (findDataTypeSpec fr.is_mc path) p) =
      some (qVal (fr.header.utc_daq_time : ℚ)) ∧
    List.lookup "sim_type"
        (initOutput fr (findDataTypeSpec fr.is_mc path) p) =
      some (Val.str (findDataTypeSpec fr.is_mc path)) ∧
    List.lookup "RunID" (initOutput fr (findDataTypeSpec fr.is_mc path) p) =
      some (qVal (fr.header.run_id : ℚ)) ∧
    List.lookup "SubrunID"
        (initOutput fr (findDataTypeSpec fr.is_mc path) p) =
      some (qVal (fr.header.sub_run_id : ℚ)) ∧
    List.lookup "EventID"
        (initOutput fr (findDataTypeSpec fr.is_mc path) p) =
      some (qVal (fr.header.event_id : ℚ)) ∧
    List.lookup "SubEventID"
        (initOutput fr (findDataTypeSpec fr.is_mc path) p) =
      some (qVal (fr.header.sub_event_id : ℚ)) := by
  refine ⟨?_, ?_, rfl, rfl, rfl, rfl, rfl, rfl⟩
  · simp [truthExtract, hctx, findDataType_some, hstream]
  · intro k hk
    fin_cases hk <;> rfl

/-- External-backend instance used by the concrete witnesses. -/
def demoCtx0 : MathCtx :=
  { cos := fun _ => 0, sin := fun _ => 0, dist := fun _ _ => 0,
    containsPoint := fun _ _ _ => false }

/-- Small square outline used by the concrete witnesses. -/
def demoBorders : Borders :=
  { xy := [(0, 0), (100, 0), (100, 100), (0, 100)], zrange := (-500, 500) }

/-- An extractor whose context has been set to an experimental-data path. -/
def demoExtractor : I3TruthExtractorState :=
  setFiles (i3TruthExtractorInit "truth" (some demoBorders))
    "run_exp_pass2.i3.gz" "level_gcd.i3.gz"

/-- Header of the concrete non-InIceSplit frame. -/
def nullSplitHeader : I3EventHeader :=
  { run_id := 7, sub_run_id := 8, event_id := 9, sub_event_id := 0,
    sub_event_stream := "NullSplit", utc_daq_time := 123456 }

/-- A frame on a non-InIceSplit sub-event stream. -/
def nullSplitFrame : Frame :=
  { header := nullSplitHeader,
    is_mc := false, is_noise := false,
    filterMask := none, deepCoreFilter13 := some true,
    l3_oscNext := none, l4_oscNext := none, l5_oscNext := none,
    l6_oscNext := none, l7_oscNext := none,
    mcInIcePrimary := none, i3MCTree := none,
    interactionType := none, genieY := none }

/-- Witness for claim C2 at a concrete non-InIceSplit frame. -/
theorem claim_C2_witness :
    truthExtract demoCtx0 demoExtractor nullSplitFrame 5 =
      (.ok (initOutput nullSplitFrame
        (findDataTypeSpec nullSplitFrame.is_mc "run_exp_pass2.i3.gz") 5),
        nullSplitFrame) ∧
    (∀ k ∈ ["energy", "position_x", "position_y", "position_z", "azimuth",
        "zenith", "pid", "interaction_type", "elasticity",
        "dbang_decay_length", "track_length", "stopped_muon", "energy_track",
        "inelasticity", "DeepCoreFilter_13", "CascadeFilter_13",
        "MuonFilter_13", "OnlineL2Filter_17", "L3_oscNext_bool",
        "L4_oscNext_bool", "L5_oscNext_bool", "L6_oscNext_bool",
        "L7_oscNext_bool"],
      List.lookup k (initOutput nullSplitFrame
        (findDataTypeSpec nullSplitFrame.is_mc "run_exp_pass2.i3.gz") 5) =
        some (qVal 5)) ∧
    List.lookup "event_time" (initOutput nullSplitFrame
        (findDataTypeSpec nullSplitFrame.is_mc "run_exp_pass2.i3.gz") 5) =
      some (qVal (nullSplitFrame.header.utc_daq_time : ℚ)) ∧
    List.lookup "sim_type" (initOutput nullSplitFrame
        (findDataTypeSpec nullSplitFrame.is_mc "run_exp_pass2.i3.gz") 5) =
      some (Val.str (findDataTypeSpec nullSplitFrame.is_mc
        "run_exp_pass2.i3.gz")) ∧
    List.lookup "RunID" (initOutput nullSplitFrame
        (findDataTypeSpec nullSplitFrame.is_mc "run_exp_pass2.i3.gz") 5) =
      some (qVal (nullSplitFrame.header.run_id : ℚ)) ∧
    List.lookup "SubrunID" (initOutput nullSplitFrame
        (findDataTypeSpec nullSplitFrame.is_mc "run_exp_pass2.i3.gz") 5) =
      some (qVal (nullSplitFrame.header.sub_run_id : ℚ)) ∧
    List.lookup "EventID" (initOutput nullSplitFrame
        (findDataTypeSpec nullSplitFrame.is_mc "run_exp_pass2.i3.gz") 5) =
      some (qVal (nullSplitFrame.header.event_id : ℚ)) ∧
    List.lookup "SubEventID" (initOutput nullSplitFrame
        (findDataTypeSpec nullSplitFrame.is_mc "run_exp_pass2.i3.gz") 5) =
      some (qVal (nullSplitFrame.header.sub_event_id : ℚ)) :=
  claim_C2_non_inice_split demoCtx0 demoExtractor nullSplitFrame 5
    "run_exp_pass2.i3.gz" rfl (by decide)

/-- Counterexample to claim C9: invoking extraction before `set_files` does
not fail with a dedicated missing-context error kind — the sim-type
classifier raises Python's generic TypeError when substring-testing the
`None` file path (`"muon" in None`). -/
theorem claim_C9_counterexample :
    (truthExtract demoCtx0 (i3TruthExtractorInit "truth" none)
      nullSplitFrame (-1)).1 = .error Err.typeError := rfl

/-- Claim C9 as amended: invoking extraction before `set_files` always
fails loudly — with the generic TypeError from the substring test on the
`None` path, not a dedicated missing-context error kind — and never
succeeds or silently produces output. -/
theorem claim_C9_amended (m : MathCtx) (name : String) (b : Option Borders)
    (fr : Frame) (p : ℚ) :
    (truthExtract m (i3TruthExtractorInit name b) fr p).1 =
      .error Err.typeError := by
  simp [truthExtract, i3TruthExtractorInit, findDataType]

/-- A named primary whose energy is NaN (the data artifact the NaN fallback
exists for). -/
def nanPrimary : Particle :=
  { id := 0, energy := .nan, pos := { x := 0, y := 0, z := 0 },
    azimuth := 0, zenith := 0, pdg_encoding := 14, length := 0,
    total_energy := 10, ptype := .other 14, shape := "Primary" }

/-- The second entry of the particle tree, distinct from the named
primary. -/
def secondEntry : Particle :=
  { id := 1, energy := .val 20, pos := { x := 1, y := 1, z := 1 },
    azimuth := 0, zenith := 0, pdg_encoding := 13, length := 50,
    total_energy := 20, ptype := .other 13, shape := "Primary" }

/-- Particle tree whose first entry is the NaN-energy primary. -/
def nanTree : MCTree :=
  { nodes := [nanPrimary, secondEntry], primaries := [nanPrimary],
    daughtersMap := [] }

/-- A frame carrying both an explicitly named NaN-energy primary and a
particle tree. -/
def nanFrame : Frame :=
  { header := nullSplitHeader,
    is_mc := true, is_noise := false,
    filterMask := none, deepCoreFilter13 := none,
    l3_oscNext := none, l4_oscNext := none, l5_oscNext := none,
    l6_oscNext := none, l7_oscNext := none,
    mcInIcePrimary := some nanPrimary, i3MCTree := some nanTree,
    interactionType := none, genieY := none }

/-- Counterexample to claim C6: the NaN fallback is not restricted to the
tree-first-entry case.  Here the record has the explicitly named primary
field, yet resolution returns the tree's second entry instead of that
particle, because the named primary's energy is NaN. -/
theorem claim_C6_counterexample :
    nanFrame.mcInIcePrimary = some nanPrimary ∧
    getPrimaryEtc nanFrame "NuGen" (-1) = .ok (some secondEntry, -1, -1) ∧
    secondEntry ≠ nanPrimary := by decide

/-- Claim C6 as amended: for a non-noise sim type the named primary field is
preferred and otherwise the tree's first entry is used, but the NaN-energy
fallback to the tree's second entry applies to the resolved candidate in
both cases, not only the tree-first-entry case. -/
theorem claim_C6_amended (fr : Frame) (st : String) (pad : ℚ)
    (hst : st ≠ "noise") :
    (∀ pr, fr.mcInIcePrimary = some pr →
      pr.energy.ieeeNe pr.energy = false →
      getPrimaryEtc fr st pad =
        .ok (some pr, interactionTypeOf fr pad, elasticityOf fr pad)) ∧
    (∀ pr p1 t, fr.mcInIcePrimary = some pr →
      pr.energy.ieeeNe pr.energy = true → fr.i3MCTree = some t →
      t.nodes[1]? = some p1 →
      getPrimaryEtc fr st pad =
        .ok (some p1, interactionTypeOf fr pad, elasticityOf fr pad)) ∧
    (∀ p0 t, fr.mcInIcePrimary = none → fr.i3MCTree = some t →
      t.nodes[0]? = some p0 → p0.energy.ieeeNe p0.energy = false →
      getPrimaryEtc fr st pad =
        .ok (some p0, interactionTypeOf fr pad, elasticityOf fr pad)) ∧
    (∀ p0 p1 t, fr.mcInIcePrimary = none → fr.i3MCTree = some t →
      t.nodes[0]? = some p0 → p0.energy.ieeeNe p0.energy = true →
      t.nodes[1]? = some p1 →
      getPrimaryEtc fr st pad =
        .ok (some p1, interactionTypeOf fr pad, elasticityOf fr pad)) := by
  refine ⟨?_, ?_, ?_, ?_⟩
  · intro pr h hn
    exact getPrimaryEtc_of_resolve fr st pad pr hst
      (resolvePrimary_named_ok fr pr h hn)
  · intro pr p1 t h hn ht h1
    exact getPrimaryEtc_of_resolve fr st pad p1 hst
      (resolvePrimary_named_nan fr pr p1 t h hn ht h1)
  · intro p0 t h ht h0 hn
    exact getPrimaryEtc_of_resolve fr st pad p0 hst
      (resolvePrimary_tree_ok fr p0 t h ht h0 hn)
  · intro p0 p1 t h ht h0 hn h1
    exact getPrimaryEtc_of_resolve fr st pad p1 hst
      (resolvePrimary_tree_nan fr p0 p1 t h ht h0 hn h1)

/-- Witness for amended claim C6: the named-primary NaN case resolves to the
tree's second entry. -/
theorem claim_C6_witness :
    getPrimaryEtc nanFrame "NuGen" (-1) =
      .ok (some secondEntry, interactionTypeOf nanFrame (-1),
        elasticityOf nanFrame (-1)) :=
  (claim_C6_amended nanFrame "NuGen" (-1) (by decide)).2.1
    nanPrimary secondEntry nanTree rfl (by decide) rfl rfl

theorem mergeDaughters_pos (rest : List Particle) :
    ∀ c1 : Particle, (∀ x ∈ rest, x.pos = c1.pos) →
      ∃ c, mergeDaughters c1 rest = some c ∧ c.pos = c1.pos := by
  induction rest with
  | nil => exact fun c1 _ => ⟨c1, rfl, rfl⟩
  | cons d tl ih =>
    intro c1 h
    have hd : d.pos = c1.pos := h d (by simp)
    obtain ⟨c, hc, hcpos⟩ :=
      ih { c1 with energy := c1.energy.add d.energy }
        (fun x hx => h x (by simp [hx]))
    refine ⟨c, ?_, hcpos⟩
    simp only [mergeDaughters]
    rw [if_pos hd.symm]
    exact hc

theorem dbang_of_try (m : MathCtx) (fr : Frame) (p : ℚ) (t : MCTree)
    (v : ℚ) (ht : fr.i3MCTree = some t) (hv : dbangTry m t p = some v) :
    (extractDbangDecayLength m fr p).1 = .ok v := by
  simp [extractDbangDecayLength, ht, hv]

theorem dbang_of_try_none (m : MathCtx) (fr : Frame) (p : ℚ) (t : MCTree)
    (ht : fr.i3MCTree = some t) (hv : dbangTry m t p = none) :
    (extractDbangDecayLength m fr p).1 = .ok p := by
  simp [extractDbangDecayLength, ht, hv]

theorem dbangTry_shape_hadronic_first (m : MathCtx) (t : MCTree) (p : ℚ)
    (prim d1 d2 h : Particle) (rest : List Particle)
    (hprim : t.primaries[0]? = some prim)
    (hds : t.getDaughters prim = [d1, d2])
    (hd1 : d1.ptype = ParticleType.Hadrons)
    (hd2 : d2.ptype ≠ ParticleType.Hadrons)
    (hhd : t.getDaughters d2 = h :: rest)
    (hpos : ∀ x ∈ rest, x.pos = h.pos) :
    dbangTry m t p = some (m.dist d1.pos h.pos / I3Units_m) := by
  obtain ⟨c, hc, hcpos⟩ := mergeDaughters_pos rest h hpos
  simp [dbangTry, hprim, hds, classifyDaughters, hd1, hd2, hhd, hc, hcpos]

theorem dbangTry_shape_hadronic_second (m : MathCtx) (t : MCTree) (p : ℚ)
    (prim d1 d2 h : Particle) (rest : List Particle)
    (hprim : t.primaries[0]? = some prim)
    (hds : t.getDaughters prim = [d1, d2])
    (hd1 : d1.ptype ≠ ParticleType.Hadrons)
    (hd2 : d2.ptype = ParticleType.Hadrons)
    (hhd : t.getDaughters d1 = h :: rest)
    (hpos : ∀ x ∈ rest, x.pos = h.pos) :
    dbangTry m t p = some (m.dist d2.pos h.pos / I3Units_m) := by
  obtain ⟨c, hc, hcpos⟩ := mergeDaughters_pos rest h hpos
  simp [dbangTry, hprim, hds, classifyDaughters, hd1, hd2, hhd, hc, hcpos]

theorem dbangTry_not_two (m : MathCtx) (t : MCTree) (p : ℚ)
    (prim : Particle) (hprim : t.primaries[0]? = some prim)
    (hlen : (t.getDaughters prim).length ≠ 2) :
    dbangTry m t p = some p := by
  simp [dbangTry, hprim, hlen]

theorem dbangTry_no_hnl_daughters (m : MathCtx) (t : MCTree) (p : ℚ)
    (prim d1 d2 : Particle) (hprim : t.primaries[0]? = some prim)
    (hds : t.getDaughters prim = [d1, d2])
    (hd2 : d2.ptype ≠ ParticleType.Hadrons)
    (hhd : t.getDaughters d2 = []) :
    dbangTry m t p = some p := by
  by_cases hd1 : d1.ptype = ParticleType.Hadrons <;>
    simp [dbangTry, hprim, hds, classifyDaughters, hd1, hd2, hhd]

theorem dbangTry_no_primaries (m : MathCtx) (t : MCTree) (p : ℚ)
    (hp : t.primaries = []) : dbangTry m t p = none := by
  simp [dbangTry, hp]

theorem mergeDaughters_some_pos (rest : List Particle) :
    ∀ c1 c : Particle, mergeDaughters c1 rest = some c →
      (∀ x ∈ rest, x.pos = c1.pos) ∧ c.pos = c1.pos := by
  induction rest with
  | nil =>
    intro c1 c h
    injection h with h
    subst h
    exact ⟨by simp, rfl⟩
  | cons d tl ih =>
    intro c1 c h
    simp only [mergeDaughters] at h
    by_cases hd : c1.pos = d.pos
    · rw [if_pos hd] at h
      obtain ⟨hall, hc⟩ := ih _ _ h
      refine ⟨?_, hc⟩
      intro x hx
      rcases List.mem_cons.mp hx with rfl | hmem
      · exact hd.symm
      · exact hall x hmem
    · rw [if_neg hd] at h
      exact absurd h (by simp)

theorem mergeDaughters_mismatch (rest : List Particle) :
    ∀ c1 : Particle, (∃ x ∈ rest, x.pos ≠ c1.pos) →
      mergeDaughters c1 rest = none := by
  induction rest with
  | nil =>
    intro c1 h
    simp at h
  | cons d tl ih =>
    intro c1 h
    simp only [mergeDaughters]
    by_cases hd : c1.pos = d.pos
    · rw [if_pos hd]
      apply ih
      obtain ⟨x, hx, hxp⟩ := h
      rcases List.mem_cons.mp hx with rfl | hmem
      · exact (hxp hd.symm).elim
      · exact ⟨x, hmem, hxp⟩
    · rw [if_neg hd]

theorem classifyDaughters_pair (d1 d2 c0 hnl : Particle)
    (h1 : (classifyDaughters [d1, d2]).1 = some c0)
    (h2 : (classifyDaughters [d1, d2]).2 = some hnl) :
    (c0 = d1 ∧ hnl = d2 ∧ d1.ptype = ParticleType.Hadrons ∧
      d2.ptype ≠ ParticleType.Hadrons) ∨
    (c0 = d2 ∧ hnl = d1 ∧ d2.ptype = ParticleType.Hadrons ∧
      d1.ptype ≠ ParticleType.Hadrons) := by
  by_cases k1 : d1.ptype = ParticleType.Hadrons <;>
    by_cases k2 : d2.ptype = ParticleType.Hadrons
  · simp [classifyDaughters, k1, k2] at h2
  · simp [classifyDaughters, k1, k2] at h1 h2
    exact Or.inl ⟨h1.symm, h2.symm, k1, k2⟩
  · simp [classifyDaughters, k1, k2] at h1 h2
    exact Or.inr ⟨h1.symm, h2.symm, k2, k1⟩
  · simp [classifyDaughters, k1, k2] at h1

theorem dbangTry_assert_failure (m : MathCtx) (t : MCTree) (p : ℚ)
    (prim d1 d2 h : Particle) (rest : List Particle)
    (hprim : t.primaries[0]? = some prim)
    (hds : t.getDaughters prim = [d1, d2])
    (hd2 : d2.ptype ≠ ParticleType.Hadrons)
    (hhd : t.getDaughters d2 = h :: rest)
    (hmm : ∃ x ∈ rest, x.pos ≠ h.pos) :
    dbangTry m t p = none := by
  have hm := mergeDaughters_mismatch rest h hmm
  by_cases hd1 : d1.ptype = ParticleType.Hadrons <;>
    simp [dbangTry, hprim, hds, classifyDaughters, hd1, hd2, hhd, hm]

theorem dbangTry_assert_failure_second (m : MathCtx) (t : MCTree) (p : ℚ)
    (prim d1 d2 h : Particle) (rest : List Particle)
    (hprim : t.primaries[0]? = some prim)
    (hds : t.getDaughters prim = [d1, d2])
    (hd1 : d1.ptype ≠ ParticleType.Hadrons)
    (hd2 : d2.ptype = ParticleType.Hadrons)
    (hhd : t.getDaughters d1 = h :: rest)
    (hmm : ∃ x ∈ rest, x.pos ≠ h.pos) :
    dbangTry m t p = none := by
  have hm := mergeDaughters_mismatch rest h hmm
  simp [dbangTry, hprim, hds, classifyDaughters, hd1, hd2, hhd, hm]

theorem dbangTry_no_hnl_daughters_second (m : MathCtx) (t : MCTree)
    (p : ℚ) (prim d1 d2 : Particle)
    (hprim : t.primaries[0]? = some prim)
    (hds : t.getDaughters prim = [d1, d2])
    (hd1 : d1.ptype ≠ ParticleType.Hadrons)
    (hd2 : d2.ptype = ParticleType.Hadrons)
    (hhd : t.getDaughters d1 = []) :
    dbangTry m t p = some p := by
  simp [dbangTry, hprim, hds, classifyDaughters, hd1, hd2, hhd]

theorem dbangTry_both_hadrons (m : MathCtx) (t : MCTree) (p : ℚ)
    (prim d1 d2 : Particle) (hprim : t.primaries[0]? = some prim)
    (hds : t.getDaughters prim = [d1, d2])
    (hd1 : d1.ptype = ParticleType.Hadrons)
    (hd2 : d2.ptype = ParticleType.Hadrons) :
    dbangTry m t p = none := by
  simp [dbangTry, hprim, hds, classifyDaughters, hd1, hd2]

theorem dbangTry_no_hadrons (m : MathCtx) (t : MCTree) (p : ℚ)
    (prim d1 d2 : Particle) (hprim : t.primaries[0]? = some prim)
    (hds : t.getDaughters prim = [d1, d2])
    (hd1 : d1.ptype ≠ ParticleType.Hadrons)
    (hd2 : d2.ptype ≠ ParticleType.Hadrons) :
    dbangTry m t p = none ∨ dbangTry m t p = some p := by
  cases hhd : t.getDaughters d2 with
  | nil =>
    exact Or.inr (dbangTry_no_hnl_daughters m t p prim d1 d2 hprim hds
      hd2 hhd)
  | cons h rest =>
    cases hm : mergeDaughters h rest with
    | none =>
      exact Or.inl (by
        simp [dbangTry, hprim, hds, classifyDaughters, hd1, hd2, hhd, hm])
    | some c =>
      exact Or.inl (by
        simp [dbangTry, hprim, hds, classifyDaughters, hd1, hd2, hhd, hm])

theorem dbangTry_cases (m : MathCtx) (t : MCTree) (p : ℚ) :
    dbangTry m t p = none ∨ dbangTry m t p = some p ∨
    ∃ prim d1 d2 c0 hnl h rest c,
      t.primaries[0]? = some prim ∧
      t.getDaughters prim = [d1, d2] ∧
      ((c0 = d1 ∧ hnl = d2) ∨ (c0 = d2 ∧ hnl = d1)) ∧
      c0.ptype = ParticleType.Hadrons ∧
      hnl.ptype ≠ ParticleType.Hadrons ∧
      t.getDaughters hnl = h :: rest ∧
      (∀ x ∈ rest, x.pos = h.pos) ∧
      mergeDaughters h rest = some c ∧ c.pos = h.pos ∧
      dbangTry m t p = some (m.dist c0.pos h.pos / I3Units_m) := by
  cases hprim : t.primaries[0]? with
  | none => exact Or.inl (by simp [dbangTry, hprim])
  | some prim =>
    by_cases hlen : (t.getDaughters prim).length = 2
    · obtain ⟨d1, d2, hds⟩ : ∃ d1 d2, t.getDaughters prim = [d1, d2] := by
        cases hd : t.getDaughters prim with
        | nil => rw [hd] at hlen; simp at hlen
        | cons a l =>
          cases l with
          | nil => rw [hd] at hlen; simp at hlen
          | cons b l2 =>
            cases l2 with
            | nil => exact ⟨a, b, rfl⟩
            | cons e l3 => rw [hd] at hlen; simp at hlen
      cases hc2 : (classifyDaughters (t.getDaughters prim)).2 with
      | none => exact Or.inl (by simp [dbangTry, hprim, hlen, hc2])
      | some hnl =>
        cases hhd : t.getDaughters hnl with
        | nil =>
          exact Or.inr (Or.inl
            (by simp [dbangTry, hprim, hlen, hc2, hhd]))
        | cons h rest =>
          cases hm : mergeDaughters h rest with
          | none =>
            exact Or.inl (by simp [dbangTry, hprim, hlen, hc2, hhd, hm])
          | some c =>
            cases hc1 : (classifyDaughters (t.getDaughters prim)).1 with
            | none =>
              exact Or.inl
                (by simp [dbangTry, hprim, hlen, hc2, hhd, hm, hc1])
            | some c0 =>
              right
              right
              obtain ⟨hall, hcpos⟩ := mergeDaughters_some_pos rest h c hm
              have hres : dbangTry m t p =
                  some (m.dist c0.pos h.pos / I3Units_m) := by
                rw [show m.dist c0.pos h.pos = m.dist c0.pos c.pos from by
                  rw [hcpos]]
                simp [dbangTry, hprim, hlen, hc2, hhd, hm, hc1]
              rw [hds] at hc1 hc2
              rcases classifyDaughters_pair d1 d2 c0 hnl hc1 hc2 with
                ⟨e0, e1, k0, k1⟩ | ⟨e0, e1, k0, k1⟩
              · exact ⟨prim, d1, d2, c0, hnl, h, rest, c, rfl, hds,
                  Or.inl ⟨e0, e1⟩, e0 ▸ k0, e1 ▸ k1, hhd, hall, hm,
                  hcpos, hres⟩
              · exact ⟨prim, d1, d2, c0, hnl, h, rest, c, rfl, hds,
                  Or.inr ⟨e0, e1⟩, e0 ▸ k0, e1 ▸ k1, hhd, hall, hm,
                  hcpos, hres⟩
    · exact Or.inr (Or.inl (dbangTry_not_two m t p prim hprim hlen))

/-- Claim C5: with the particle tree present, the decay-length computation
returns the 3-D distance between the hadronic-cascade daughter and the
merged candidate cascade exactly on the double-cascade shape (two daughters
of the primary, exactly one of them Hadrons, the candidate with at least
one daughter of its own, all at one position, energies merged); on every
other structural shape — wrong daughter count, zero candidate daughters
(either order), both daughters of the same type, empty primaries list,
assertion failure from a position mismatch in the merge — it returns the
padding value; it never propagates an exception, and every returned value
is either the padding value or the distance of a double-cascade shape. -/
theorem claim_C5_dbang_decay_length (m : MathCtx) (fr : Frame) (p : ℚ)
    (t : MCTree) (ht : fr.i3MCTree = some t) :
    (∀ prim d1 d2 h rest, t.primaries[0]? = some prim →
      t.getDaughters prim = [d1, d2] →
      d1.ptype = ParticleType.Hadrons → d2.ptype ≠ ParticleType.Hadrons →
      t.getDaughters d2 = h :: rest → (∀ x ∈ rest, x.pos = h.pos) →
      (extractDbangDecayLength m fr p).1 =
        .ok (m.dist d1.pos h.pos / I3Units_m)) ∧
    (∀ prim d1 d2 h rest, t.primaries[0]? = some prim →
      t.getDaughters prim = [d1, d2] →
      d1.ptype ≠ ParticleType.Hadrons → d2.ptype = ParticleType.Hadrons →
      t.getDaughters d1 = h :: rest → (∀ x ∈ rest, x.pos = h.pos) →
      (extractDbangDecayLength m fr p).1 =
        .ok (m.dist d2.pos h.pos / I3Units_m)) ∧
    (∀ prim, t.primaries[0]? = some prim →
      (t.getDaughters prim).length ≠ 2 →
      (extractDbangDecayLength m fr p).1 = .ok p) ∧
    (∀ prim d1 d2, t.primaries[0]? = some prim →
      t.getDaughters prim = [d1, d2] →
      d2.ptype ≠ ParticleType.Hadrons → t.getDaughters d2 = [] →
      (extractDbangDecayLength m fr p).1 = .ok p) ∧
    (t.primaries = [] → (extractDbangDecayLength m fr p).1 = .ok p) ∧
    (∃ v, (extractDbangDecayLength m fr p).1 = .ok v) ∧
    (∀ prim d1 d2 h rest, t.primaries[0]? = some prim →
      t.getDaughters prim = [d1, d2] →
      d2.ptype ≠ ParticleType.Hadrons →
      t.getDaughters d2 = h :: rest → (∃ x ∈ rest, x.pos ≠ h.pos) →
      (extractDbangDecayLength m fr p).1 = .ok p) ∧
    (∀ prim d1 d2 h rest, t.primaries[0]? = some prim →
      t.getDaughters prim = [d1, d2] →
      d1.ptype ≠ ParticleType.Hadrons → d2.ptype = ParticleType.Hadrons →
      t.getDaughters d1 = h :: rest → (∃ x ∈ rest, x.pos ≠ h.pos) →
      (extractDbangDecayLength m fr p).1 = .ok p) ∧
    (∀ prim d1 d2, t.primaries[0]? = some prim →
      t.getDaughters prim = [d1, d2] →
      d1.ptype ≠ ParticleType.Hadrons → d2.ptype = ParticleType.Hadrons →
      t.getDaughters d1 = [] →
      (extractDbangDecayLength m fr p).1 = .ok p) ∧
    (∀ prim d1 d2, t.primaries[0]? = some prim →
      t.getDaughters prim = [d1, d2] →
      d1.ptype = ParticleType.Hadrons → d2.ptype = ParticleType.Hadrons →
      (extractDbangDecayLength m fr p).1 = .ok p) ∧
    (∀ prim d1 d2, t.primaries[0]? = some prim →
      t.getDaughters prim = [d1, d2] →
      d1.ptype ≠ ParticleType.Hadrons → d2.ptype ≠ ParticleType.Hadrons →
      (extractDbangDecayLength m fr p).1 = .ok p) ∧
    (∀ v, (extractDbangDecayLength m fr p).1 = .ok v →
      v = p ∨
      ∃ prim d1 d2 c0 hnl h rest c,
        t.primaries[0]? = some prim ∧
        t.getDaughters prim = [d1, d2] ∧
        ((c0 = d1 ∧ hnl = d2) ∨ (c0 = d2 ∧ hnl = d1)) ∧
        c0.ptype = ParticleType.Hadrons ∧
        hnl.ptype ≠ ParticleType.Hadrons ∧
        t.getDaughters hnl = h :: rest ∧
        (∀ x ∈ rest, x.pos = h.pos) ∧
        mergeDaughters h rest = some c ∧ c.pos = h.pos ∧
        v = m.dist c0.pos h.pos / I3Units_m) := by
  refine ⟨?_, ?_, ?_, ?_, ?_, dbang_ok m fr p t ht, ?_, ?_, ?_, ?_, ?_,
    ?_⟩
  · intro prim d1 d2 h rest hprim hds hd1 hd2 hhd hpos
    exact dbang_of_try m fr p t _ ht
      (dbangTry_shape_hadronic_first m t p prim d1 d2 h rest
        hprim hds hd1 hd2 hhd hpos)
  · intro prim d1 d2 h rest hprim hds hd1 hd2 hhd hpos
    exact dbang_of_try m fr p t _ ht
      (dbangTry_shape_hadronic_second m t p prim d1 d2 h rest
        hprim hds hd1 hd2 hhd hpos)
  · intro prim hprim hlen
    exact dbang_of_try m fr p t p ht (dbangTry_not_two m t p prim hprim hlen)
  · intro prim d1 d2 hprim hds hd2 hhd
    exact dbang_of_try m fr p t p ht
      (dbangTry_no_hnl_daughters m t p prim d1 d2 hprim hds hd2 hhd)
  · intro hp
    exact dbang_of_try_none m fr p t ht (dbangTry_no_primaries m t p hp)
  · intro prim d1 d2 h rest hprim hds hd2 hhd hmm
    exact dbang_of_try_none m fr p t ht
      (dbangTry_assert_failure m t p prim d1 d2 h rest hprim hds hd2 hhd
        hmm)
  · intro prim d1 d2 h rest hprim hds hd1 hd2 hhd hmm
    exact dbang_of_try_none m fr p t ht
      (dbangTry_assert_failure_second m t p prim d1 d2 h rest hprim hds
        hd1 hd2 hhd hmm)
  · intro prim d1 d2 hprim hds hd1 hd2 hhd
    exact dbang_of_try m fr p t p ht
      (dbangTry_no_hnl_daughters_second m t p prim d1 d2 hprim hds hd1
        hd2 hhd)
  · intro prim d1 d2 hprim hds hd1 hd2
    exact dbang_of_try_none m fr p t ht
      (dbangTry_both_hadrons m t p prim d1 d2 hprim hds hd1 hd2)
  · intro prim d1 d2 hprim hds hd1 hd2
    rcases dbangTry_no_hadrons m t p prim d1 d2 hprim hds hd1 hd2 with
      hn | hs
    · exact dbang_of_try_none m fr p t ht hn
    · exact dbang_of_try m fr p t p ht hs
  · intro v hv
    rcases dbangTry_cases m t p with hn | hs |
      ⟨prim, d1, d2, c0, hnl, h, rest, c, hprim, hds, hor, hc0, hhnl,
        hhd, hall, hm, hcp, hres⟩
    · have hthis := dbang_of_try_none m fr p t ht hn
      rw [hv] at hthis
      injection hthis with hthis
      exact Or.inl hthis
    · have hthis := dbang_of_try m fr p t p ht hs
      rw [hv] at hthis
      injection hthis with hthis
      exact Or.inl hthis
    · have hthis := dbang_of_try m fr p t _ ht hres
      rw [hv] at hthis
      injection hthis with hthis
      exact Or.inr ⟨prim, d1, d2, c0, hnl, h, rest, c, hprim, hds, hor,
        hc0, hhnl, hhd, hall, hm, hcp, hthis⟩

/-- Header of a concrete InIceSplit frame. -/
def inIceHeader : I3EventHeader :=
  { run_id := 11, sub_run_id := 0, event_id := 5, sub_event_id := 1,
    sub_event_stream := "InIceSplit", utc_daq_time := 777 }

/-- Primary of the concrete double-cascade event. -/
def dbangPrimary : Particle :=
  { id := 9, energy := .val 70, pos := { x := 0, y := 0, z := 0 },
    azimuth := 0, zenith := 0, pdg_encoding := 16, length := 0,
    total_energy := 70, ptype := .other 16, shape := "Primary" }

/-- Hadronic cascade daughter of the concrete double-cascade event. -/
def hadronCascade : Particle :=
  { id := 10, energy := .val 30, pos := { x := 0, y := 0, z := 0 },
    azimuth := 0, zenith := 0, pdg_encoding := -2000001006, length := 0,
    total_energy := 30, ptype := .Hadrons, shape := "Cascade" }

/-- Heavy-neutral-lepton candidate daughter. -/
def hnlParticle : Particle :=
  { id := 11, energy := .val 40, pos := { x := 3, y := 4, z := 0 },
    azimuth := 0, zenith := 0, pdg_encoding := 17, length := 0,
    total_energy := 40, ptype := .other 17, shape := "Dark" }

/-- First daughter of the candidate (seed of the merged cascade). -/
def hnlDaughterA : Particle :=
  { id := 12, energy := .val 25, pos := { x := 30, y := 40, z := 0 },
    azimuth := 0, zenith := 0, pdg_encoding := 11, length := 0,
    total_energy := 25, ptype := .other 11, shape := "Cascade" }

/-- Second daughter of the candidate, at the same position. -/
def hnlDaughterB : Particle :=
  { id := 13, energy := .val 15, pos := { x := 30, y := 40, z := 0 },
    azimuth := 0, zenith := 0, pdg_encoding := -11, length := 0,
    total_energy := 15, ptype := .other (-11), shape := "Cascade" }

/-- Particle tree of the concrete double-cascade event. -/
def dbangTree : MCTree :=
  { nodes := [dbangPrimary, hadronCascade, hnlParticle, hnlDaughterA,
      hnlDaughterB],
    primaries := [dbangPrimary],
    daughtersMap := [(9, [hadronCascade, hnlParticle]),
      (11, [hnlDaughterA, hnlDaughterB])] }

/-- Frame of the concrete double-cascade event. -/
def dbangFrame : Frame :=
  { header := inIceHeader,
    is_mc := true, is_noise := false,
    filterMask := none, deepCoreFilter13 := none,
    l3_oscNext := none, l4_oscNext := none, l5_oscNext := none,
    l6_oscNext := none, l7_oscNext := none,
    mcInIcePrimary := some dbangPrimary, i3MCTree := some dbangTree,
    interactionType := none, genieY := none }

/-- Witness for claim C5 on the concrete double-cascade event. -/
theorem claim_C5_witness :
    (extractDbangDecayLength demoCtx0 dbangFrame 9).1 =
      .ok (demoCtx0.dist hadronCascade.pos hnlDaughterA.pos / I3Units_m) :=
  (claim_C5_dbang_decay_length demoCtx0 dbangFrame 9 dbangTree rfl).1
    dbangPrimary hadronCascade hnlParticle hnlDaughterA [hnlDaughterB]
    rfl rfl rfl (by decide) rfl (by decide)

theorem truthExtract_frame (m : MathCtx) (ex : I3TruthExtractorState)
    (fr : Frame) (p : ℚ) : (truthExtract m ex fr p).2 = fr := by
  have hdb := dbang_frame m fr p
  simp only [truthExtract]
  repeat' split
  all_goals simp_all

/-- Claim C8: extraction is side-effect-free and idempotent — the frame
(including the externally owned particle tree) comes back unchanged, the
decay-length merge in particular leaves it untouched (the energy sum happens
on a value-like copy of the daughter), and re-running extraction on the
frame returned by a first run reproduces that run exactly. -/
theorem claim_C8_idempotent_and_pure (m : MathCtx)
    (ex : I3TruthExtractorState) (fr : Frame) (p : ℚ) :
    (truthExtract m ex fr p).2 = fr ∧
    (extractDbangDecayLength m fr p).2 = fr ∧
    truthExtract m ex ((truthExtract m ex fr p).2) p =
      truthExtract m ex fr p := by
  refine ⟨truthExtract_frame m ex fr p, dbang_frame m fr p, ?_⟩
  rw [truthExtract_frame m ex fr p]

/-- Claim C1: on a well-formed invocation (context set; when the
Monte-Carlo truth phase runs, its structural preconditions hold) the
extractor never raises and returns a record whose key list is exactly the
fixed 29-field schema, for every sub-event stream and simulation type. -/
theorem claim_C1_fixed_schema_no_raise (m : MathCtx)
    (ex : I3TruthExtractorState) (fr : Frame) (p : ℚ)
    (hwf : wellFormed ex fr = true) :
    ∃ out fr', truthExtract m ex fr p = (.ok out, fr') ∧
      out.map Prod.fst = truthFieldKeys := by
  unfold wellFormed at hwf
  cases hf : findDataType fr.is_mc ex.i3File with
  | error e => rw [hf] at hwf; simp at hwf
  | ok st =>
    rw [hf] at hwf
    simp only [truthExtract, hf]
    by_cases hstream : fr.header.sub_event_stream ≠ "InIceSplit"
    · rw [if_pos hstream]
      exact ⟨_, _, rfl, keysOf_initOutput fr st p⟩
    · rw [if_neg hstream]
      have hk₁ : (applyOscNext fr (applyFilterMask fr
          (initOutput fr st p))).map Prod.fst = truthFieldKeys :=
        keysOf_applyOscNext _ _
          (keysOf_applyFilterMask _ _ (keysOf_initOutput fr st p))
      by_cases hmc : (fr.is_mc && !fr.is_noise) = true
      · rw [if_pos hmc]
        have hwfmc : wellFormedMC st fr = true := by
          rw [hmc] at hwf
          simpa using hwf
        have hst : st ≠ "noise" := wfMC_sim_type st fr hwfmc
        obtain ⟨t, ht, hprims⟩ := wfMC_tree st fr hwfmc
        obtain ⟨pr, hres⟩ := resolvePrimary_ok_of_wfMC st fr hwfmc
        have hprim := getPrimaryEtc_of_resolve fr st (-1) pr hst hres
        obtain ⟨⟨et, inel⟩, htrack⟩ := getTrack_ok fr t ht hprims
        obtain ⟨db, hdb1⟩ := dbang_ok m fr p t ht
        have hdbpair : extractDbangDecayLength m fr p = (.ok db, fr) := by
          have h2 := dbang_frame m fr p
          cases hx : extractDbangDecayLength m fr p with
          | mk a b =>
            rw [hx] at hdb1 h2
            simp only at hdb1 h2
            rw [hdb1, h2]
        simp only [hprim, htrack, hdbpair]
        split
        · refine ⟨_, _, rfl, ?_⟩
          apply keysOf_updAll_schema _ _ (by
            intro k hk
            simp only [mcUpdateList, muonUpdateList, List.map_cons,
              List.map_nil] at hk
            fin_cases hk <;> decide)
          apply keysOf_setKey_schema _ _ _ (by decide)
          apply keysOf_updAll_schema _ _ (by
            intro k hk
            simp only [mcUpdateList, muonUpdateList, List.map_cons,
              List.map_nil] at hk
            fin_cases hk <;> decide)
          exact hk₁
        · refine ⟨_, _, rfl, ?_⟩
          apply keysOf_updAll_schema _ _ (by
            intro k hk
            simp only [mcUpdateList, muonUpdateList, List.map_cons,
              List.map_nil] at hk
            fin_cases hk <;> decide)
          exact hk₁
      · rw [if_neg hmc]
        exact ⟨_, _, rfl, hk₁⟩

/-- Witness for claim C1: the full Monte-Carlo phase on the concrete
double-cascade event yields exactly the 29-field schema. -/
theorem claim_C1_witness :
    ∃ out fr', truthExtract demoCtx0 demoExtractor dbangFrame 3 =
      (.ok out, fr') ∧ out.map Prod.fst = truthFieldKeys :=
  claim_C1_fixed_schema_no_raise demoCtx0 demoExtractor dbangFrame 3
    (by decide)

theorem lookup_mcUpdate_px (o : Output) (pr : Particle)
    (itv elv dbv etv inelv : ℚ) :
    List.lookup "position_x"
      (updAll o (mcUpdateList pr itv elv dbv etv inelv)) =
      some (qVal pr.pos.x) := by
  rw [lookup_updAll]; rfl

theorem lookup_mcUpdate_py (o : Output) (pr : Particle)
    (itv elv dbv etv inelv : ℚ) :
    List.lookup "position_y"
      (updAll o (mcUpdateList pr itv elv dbv etv inelv)) =
      some (qVal pr.pos.y) := by
  rw [lookup_updAll]; rfl

theorem lookup_mcUpdate_pz (o : Output) (pr : Particle)
    (itv elv dbv etv inelv : ℚ) :
    List.lookup "position_z"
      (updAll o (mcUpdateList pr itv elv dbv etv inelv)) =
      some (qVal pr.pos.z) := by
  rw [lookup_updAll]; rfl

theorem lookup_mcUpdate_az (o : Output) (pr : Particle)
    (itv elv dbv etv inelv : ℚ) :
    List.lookup "azimuth"
      (updAll o (mcUpdateList pr itv elv dbv etv inelv)) =
      some (qVal pr.azimuth) := by
  rw [lookup_updAll]; rfl

theorem lookup_mcUpdate_zen (o : Output) (pr : Particle)
    (itv elv dbv etv inelv : ℚ) :
    List.lookup "zenith"
      (updAll o (mcUpdateList pr itv elv dbv etv inelv)) =
      some (qVal pr.zenith) := by
  rw [lookup_updAll]; rfl

theorem lookup_mcUpdate_pid (o : Output) (pr : Particle)
    (itv elv dbv etv inelv : ℚ) :
    List.lookup "pid"
      (updAll o (mcUpdateList pr itv elv dbv etv inelv)) =
      some (qVal (pr.pdg_encoding : ℚ)) := by
  rw [lookup_updAll]; rfl

theorem pidIs13_mcUpdate (o : Output) (pr : Particle)
    (itv elv dbv etv inelv : ℚ)
    (hpid : |(pr.pdg_encoding : ℚ)| = 13) :
    pidIs13 (updAll o (mcUpdateList pr itv elv dbv etv inelv)) = true := by
  unfold pidIs13
  rw [lookup_mcUpdate_pid]
  simp [qVal, hpid]

theorem lookupQ_eq (o : Output) (k : String) (q : ℚ)
    (h : List.lookup k o = some (qVal q)) : lookupQ o k = q := by
  simp [lookupQ, h, qVal]

theorem muonStopped_of_mcUpdate (m : MathCtx) (bo : Borders) (o : Output)
    (pr : Particle) (itv elv dbv etv inelv : ℚ) :
    muonStopped m
      (setKey (updAll o (mcUpdateList pr itv elv dbv etv inelv))
        "track_length" (qVal pr.length)) bo 100 100 =
      { x := pr.pos.x + -(pr.length * m.cos pr.azimuth * m.sin pr.zenith),
        y := pr.pos.y + -(pr.length * m.sin pr.azimuth * m.sin pr.zenith),
        z := pr.pos.z + -(pr.length * m.cos pr.zenith),
        stopped := m.containsPoint bo.xy
            (pr.pos.x + -(pr.length * m.cos pr.azimuth * m.sin pr.zenith),
             pr.pos.y + -(pr.length * m.sin pr.azimuth * m.sin pr.zenith))
            (-100) &&
          (decide (pr.pos.z + -(pr.length * m.cos pr.zenith) >
              bo.zrange.1 + 100) &&
           decide (pr.pos.z + -(pr.length * m.cos pr.zenith) <
              bo.zrange.2 - 100)) } := by
  have hx : List.lookup "position_x"
      (setKey (updAll o (mcUpdateList pr itv elv dbv etv inelv))
        "track_length" (qVal pr.length)) = some (qVal pr.pos.x) := by
    rw [lookup_setKey_ne _ _ _ _ (by decide), lookup_mcUpdate_px]
  have hy : List.lookup "position_y"
      (setKey (updAll o (mcUpdateList pr itv elv dbv etv inelv))
        "track_length" (qVal pr.length)) = some (qVal pr.pos.y) := by
    rw [lookup_setKey_ne _ _ _ _ (by decide), lookup_mcUpdate_py]
  have hz : List.lookup "position_z"
      (setKey (updAll o (mcUpdateList pr itv elv dbv etv inelv))
        "track_length" (qVal pr.length)) = some (qVal pr.pos.z) := by
    rw [lookup_setKey_ne _ _ _ _ (by decide), lookup_mcUpdate_pz]
  have haz : List.lookup "azimuth"
      (setKey (updAll o (mcUpdateList pr itv elv dbv etv inelv))
        "track_length" (qVal pr.length)) = some (qVal pr.azimuth) := by
    rw [lookup_setKey_ne _ _ _ _ (by decide), lookup_mcUpdate_az]
  have hzen : List.lookup "zenith"
      (setKey (updAll o (mcUpdateList pr itv elv dbv etv inelv))
        "track_length" (qVal pr.length)) = some (qVal pr.zenith) := by
    rw [lookup_setKey_ne _ _ _ _ (by decide), lookup_mcUpdate_zen]
  have htl : List.lookup "track_length"
      (setKey (updAll o (mcUpdateList pr itv elv dbv etv inelv))
        "track_length" (qVal pr.length)) = some (qVal pr.length) :=
    lookup_setKey_self _ _ _
  simp only [muonStopped, lookupQ_eq _ _ _ hx, lookupQ_eq _ _ _ hy,
    lookupQ_eq _ _ _ hz, lookupQ_eq _ _ _ haz, lookupQ_eq _ _ _ hzen,
    lookupQ_eq _ _ _ htl]

theorem lookup_muonUpdate_px (o : Output) (mf : MuonFinal) :
    List.lookup "position_x" (updAll o (muonUpdateList mf)) =
      some (qVal mf.x) := by
  rw [lookup_updAll]; rfl

theorem lookup_muonUpdate_py (o : Output) (mf : MuonFinal) :
    List.lookup "position_y" (updAll o (muonUpdateList mf)) =
      some (qVal mf.y) := by
  rw [lookup_updAll]; rfl

theorem lookup_muonUpdate_pz (o : Output) (mf : MuonFinal) :
    List.lookup "position_z" (updAll o (muonUpdateList mf)) =
      some (qVal mf.z) := by
  rw [lookup_updAll]; rfl

theorem lookup_muonUpdate_stopped (o : Output) (mf : MuonFinal) :
    List.lookup "stopped_muon" (updAll o (muonUpdateList mf)) =
      some (boolVal mf.stopped) := by
  rw [lookup_updAll]; rfl

theorem lookup_muonUpdate_track (o : Output) (mf : MuonFinal) :
    List.lookup "track_length" (updAll o (muonUpdateList mf)) =
      List.lookup "track_length" o := by
  rw [lookup_updAll]; rfl

/-- Claim C4: for a Monte-Carlo, non-noise InIceSplit event whose resolved
primary has particle code of absolute value 13, the output records the
primary's track length, overwrites the position fields with
start_position + (-track_length * (cos az * sin zen, sin az * sin zen,
cos zen)), and sets stopped_muon to 1 exactly when the projected (x, y) is
inside the fiducial polygon shrunk by the 100 m horizontal pad (matplotlib
radius -100) and the projected z satisfies zmin + 100 < z < zmax - 100
strictly, else 0. -/
theorem claim_C4_muon_final_position (m : MathCtx)
    (ex : I3TruthExtractorState) (fr : Frame) (p : ℚ) (path : String)
    (pr : Particle) (it el et inel db : ℚ)
    (hctx : ex.i3File = some path)
    (hstream : fr.header.sub_event_stream = "InIceSplit")
    (hmc : fr.is_mc = true) (hnoise : fr.is_noise = false)
    (hprim : getPrimaryEtc fr (findDataTypeSpec fr.is_mc path) (-1) =
      .ok (some pr, it, el))
    (htrack : getPrimaryTrackEnergyAndInelasticity fr = .ok (et, inel))
    (hdb : (extractDbangDecayLength m fr p).1 = .ok db)
    (hpid : |(pr.pdg_encoding : ℚ)| = 13) :
    ∃ out, (truthExtract m ex fr p).1 = .ok out ∧
      List.lookup "track_length" out = some (qVal pr.length) ∧
      List.lookup "position_x" out = some (qVal
        (pr.pos.x + -(pr.length * m.cos pr.azimuth * m.sin pr.zenith))) ∧
      List.lookup "position_y" out = some (qVal
        (pr.pos.y + -(pr.length * m.sin pr.azimuth * m.sin pr.zenith))) ∧
      List.lookup "position_z" out = some (qVal
        (pr.pos.z + -(pr.length * m.cos pr.zenith))) ∧
      List.lookup "stopped_muon" out = some (boolVal
        (m.containsPoint ex.borders.xy
            (pr.pos.x + -(pr.length * m.cos pr.azimuth * m.sin pr.zenith),
             pr.pos.y + -(pr.length * m.sin pr.azimuth * m.sin pr.zenith))
            (-100) &&
          (decide (pr.pos.z + -(pr.length * m.cos pr.zenith) >
              ex.borders.zrange.1 + 100) &&
           decide (pr.pos.z + -(pr.length * m.cos pr.zenith) <
              ex.borders.zrange.2 - 100)))) := by
  have hdbpair : extractDbangDecayLength m fr p = (.ok db, fr) := by
    have h2 := dbang_frame m fr p
    cases hx : extractDbangDecayLength m fr p with
    | mk a b =>
      rw [hx] at hdb h2
      simp only at hdb h2
      rw [hdb, h2]
  rw [hmc] at hprim
  simp [truthExtract, hctx, findDataType_some, hstream, hmc, hnoise,
    hprim, htrack, hdbpair]
  rw [pidIs13_mcUpdate _ pr it el db et inel hpid]
  simp only [if_true]
  rw [muonStopped_of_mcUpdate]
  refine ⟨_, rfl, ?_, ?_, ?_, ?_, ?_⟩
  · rw [lookup_muonUpdate_track, lookup_setKey_self]
  · rw [lookup_muonUpdate_px]
  · rw [lookup_muonUpdate_py]
  · rw [lookup_muonUpdate_pz]
  · rw [lookup_muonUpdate_stopped]
    congr 2
    show (m.containsPoint ex.borders.xy
        (pr.pos.x + -(pr.length * m.cos pr.azimuth * m.sin pr.zenith),
         pr.pos.y + -(pr.length * m.sin pr.azimuth * m.sin pr.zenith))
        (-100) &&
      (decide (pr.pos.z + -(pr.length * m.cos pr.zenith) >
          ex.borders.zrange.1 + 100) &&
       decide (pr.pos.z + -(pr.length * m.cos pr.zenith) <
          ex.borders.zrange.2 - 100))) = _
    congr 1
    congr 1
    · exact decide_eq_decide.mpr ⟨fun h => by linarith, fun h => by linarith⟩
    · exact decide_eq_decide.mpr ⟨fun h => by linarith, fun h => by linarith⟩

/-- A concrete muon primary (pdg 13) with a 200 m track. -/
def muonPrimary : Particle :=
  { id := 20, energy := .val 100, pos := { x := 50, y := 50, z := 0 },
    azimuth := 0, zenith := 0, pdg_encoding := 13, length := 200,
    total_energy := 100, ptype := .other 13, shape := "Primary" }

/-- Tree holding only the muon primary. -/
def muonTree : MCTree :=
  { nodes := [muonPrimary], primaries := [muonPrimary],
    daughtersMap := [(20, [])] }

/-- A Monte-Carlo InIceSplit frame whose primary is the muon. -/
def muonFrame : Frame :=
  { header := inIceHeader,
    is_mc := true, is_noise := false,
    filterMask := none, deepCoreFilter13 := none,
    l3_oscNext := none, l4_oscNext := none, l5_oscNext := none,
    l6_oscNext := none, l7_oscNext := none,
    mcInIcePrimary := some muonPrimary, i3MCTree := some muonTree,
    interactionType := some 1, genieY := none }

/-- Witness for claim C4 on the concrete muon event. -/
theorem claim_C4_witness :
    ∃ out, (truthExtract demoCtx0 demoExtractor muonFrame (-1)).1 =
      .ok out ∧
      List.lookup "track_length" out = some (qVal muonPrimary.length) ∧
      List.lookup "position_x" out = some (qVal (muonPrimary.pos.x +
        -(muonPrimary.length * demoCtx0.cos muonPrimary.azimuth *
          demoCtx0.sin muonPrimary.zenith))) ∧
      List.lookup "position_y" out = some (qVal (muonPrimary.pos.y +
        -(muonPrimary.length * demoCtx0.sin muonPrimary.azimuth *
          demoCtx0.sin muonPrimary.zenith))) ∧
      List.lookup "position_z" out = some (qVal (muonPrimary.pos.z +
        -(muonPrimary.length * demoCtx0.cos muonPrimary.zenith))) ∧
      List.lookup "stopped_muon" out = some (boolVal
        (demoCtx0.containsPoint demoExtractor.borders.xy
            (muonPrimary.pos.x + -(muonPrimary.length *
              demoCtx0.cos muonPrimary.azimuth *
              demoCtx0.sin muonPrimary.zenith),
             muonPrimary.pos.y + -(muonPrimary.length *
              demoCtx0.sin muonPrimary.azimuth *
              demoCtx0.sin muonPrimary.zenith))
            (-100) &&
          (decide (muonPrimary.pos.z + -(muonPrimary.length *
              demoCtx0.cos muonPrimary.zenith) >
              demoExtractor.borders.zrange.1 + 100) &&
           decide (muonPrimary.pos.z + -(muonPrimary.length *
              demoCtx0.cos muonPrimary.zenith) <
              demoExtractor.borders.zrange.2 - 100)))) :=
  claim_C4_muon_final_position demoCtx0 demoExtractor muonFrame (-1)
    "run_exp_pass2.i3.gz" muonPrimary 1 (-1) 0 1 (-1)
    rfl rfl rfl rfl (by decide)
    (by
      simp [getPrimaryTrackEnergyAndInelasticity, muonFrame, muonTree,
        MCTree.getDaughters, muonPrimary])
    (by decide) (by norm_num [muonPrimary])

theorem lookup_DCF_init (fr : Frame) (st : String) (p : ℚ) :
    List.lookup "DeepCoreFilter_13" (initOutput fr st p) =
      some (qVal p) := rfl

theorem lookup_DCF_osc (fr : Frame) (o : Output) :
    List.lookup "DeepCoreFilter_13" (applyOscNext fr o) =
      List.lookup "DeepCoreFilter_13" o := by
  simp only [applyOscNext]
  rw [lookup_condSet_ne _ _ _ _ (by decide),
    lookup_condSet_ne _ _ _ _ (by decide),
    lookup_condSet_ne _ _ _ _ (by decide),
    lookup_condSet_ne _ _ _ _ (by decide),
    lookup_condSet_ne _ _ _ _ (by decide)]

theorem lookup_DCF_mask_entry_absent (fr : Frame) (o : Output)
    (mask : List (String × Bool)) (hm : fr.filterMask = some mask)
    (hd : mask.lookup "DeepCoreFilter_13" = none) :
    List.lookup "DeepCoreFilter_13" (applyFilterMask fr o) =
      List.lookup "DeepCoreFilter_13" o := by
  simp only [applyFilterMask, hm, hd]
  rw [lookup_condSet_ne _ _ _ _ (by decide),
    lookup_condSet_ne _ _ _ _ (by decide),
    lookup_condSet_ne _ _ _ _ (by decide)]
  rfl

theorem lookup_DCF_mask_absent (fr : Frame) (o : Output) (b : Bool)
    (hm : fr.filterMask = none) (hb : fr.deepCoreFilter13 = some b) :
    List.lookup "DeepCoreFilter_13" (applyFilterMask fr o) =
      some (boolVal b) := by
  simp only [applyFilterMask, hm, hb]
  exact lookup_setKey_self _ _ _

theorem lookup_DCF_mc (o : Output) (pr : Particle)
    (itv elv dbv etv inelv : ℚ) :
    List.lookup "DeepCoreFilter_13"
      (updAll o (mcUpdateList pr itv elv dbv etv inelv)) =
      List.lookup "DeepCoreFilter_13" o := by
  rw [lookup_updAll]; rfl

theorem lookup_DCF_muon (o : Output) (mf : MuonFinal) :
    List.lookup "DeepCoreFilter_13" (updAll o (muonUpdateList mf)) =
      List.lookup "DeepCoreFilter_13" o := by
  rw [lookup_updAll]; rfl

theorem lookup_DCF_track (o : Output) (v : Val) :
    List.lookup "DeepCoreFilter_13" (setKey o "track_length" v) =
      List.lookup "DeepCoreFilter_13" o :=
  lookup_setKey_ne _ _ _ _ (by decide)

/-- Claim C10: when the frame contains a FilterMask, the legacy top-level
DeepCoreFilter_13 field is never consulted — if the mask lacks the entry the
output field stays at the padding value even if a top-level field is
present; the top-level fallback is read only when FilterMask is absent. -/
theorem claim_C10_filtermask_precedence (m : MathCtx)
    (ex : I3TruthExtractorState) (fr : Frame) (p : ℚ) (out : Output)
    (fr' : Frame) (h : truthExtract m ex fr p = (.ok out, fr')) :
    (∀ mask, fr.filterMask = some mask →
      mask.lookup "DeepCoreFilter_13" = none →
      List.lookup "DeepCoreFilter_13" out = some (qVal p)) ∧
    (∀ b, fr.filterMask = none → fr.deepCoreFilter13 = some b →
      fr.header.sub_event_stream = "InIceSplit" →
      List.lookup "DeepCoreFilter_13" out = some (boolVal b)) := by
  cases hf : findDataType fr.is_mc ex.i3File with
  | error e =>
    simp [truthExtract, hf] at h
  | ok st =>
    simp only [truthExtract, hf] at h
    by_cases hs : fr.header.sub_event_stream = "InIceSplit"
    · rw [if_neg (by simp [hs])] at h
      by_cases hmc : (fr.is_mc && !fr.is_noise) = true
      · rw [if_pos hmc] at h
        cases hprim : getPrimaryEtc fr st (-1) with
        | error e => simp [hprim] at h
        | ok tup =>
          obtain ⟨prim?, it, el⟩ := tup
          simp only [hprim] at h
          cases htrack : getPrimaryTrackEnergyAndInelasticity fr with
          | error e => simp [htrack] at h
          | ok r =>
            obtain ⟨et, inel⟩ := r
            simp only [htrack] at h
            cases prim? with
            | none => simp at h
            | some pr =>
              cases hdbp : extractDbangDecayLength m fr p with
              | mk res fr2 =>
                cases res with
                | error e => simp [hdbp] at h
                | ok db =>
                  simp only [hdbp] at h
                  split at h
                  · rw [Prod.mk.injEq] at h
                    obtain ⟨h1, -⟩ := h
                    injection h1 with h1
                    subst h1
                    constructor
                    · intro mask hm hd
                      rw [lookup_DCF_muon, lookup_DCF_track, lookup_DCF_mc,
                        lookup_DCF_osc,
                        lookup_DCF_mask_entry_absent fr _ mask hm hd,
                        lookup_DCF_init]
                    · intro b hm hb hstream
                      rw [lookup_DCF_muon, lookup_DCF_track, lookup_DCF_mc,
                        lookup_DCF_osc,
                        lookup_DCF_mask_absent fr _ b hm hb]
                  · rw [Prod.mk.injEq] at h
                    obtain ⟨h1, -⟩ := h
                    injection h1 with h1
                    subst h1
                    constructor
                    · intro mask hm hd
                      rw [lookup_DCF_mc, lookup_DCF_osc,
                        lookup_DCF_mask_entry_absent fr _ mask hm hd,
                        lookup_DCF_init]
                    · intro b hm hb hstream
                      rw [lookup_DCF_mc, lookup_DCF_osc,
                        lookup_DCF_mask_absent fr _ b hm hb]
      · rw [if_neg hmc] at h
        rw [Prod.mk.injEq] at h
        obtain ⟨h1, -⟩ := h
        injection h1 with h1
        subst h1
        constructor
        · intro mask hm hd
          rw [lookup_DCF_osc, lookup_DCF_mask_entry_absent fr _ mask hm hd,
            lookup_DCF_init]
        · intro b hm hb hstream
          rw [lookup_DCF_osc, lookup_DCF_mask_absent fr _ b hm hb]
    · rw [if_pos hs] at h
      rw [Prod.mk.injEq] at h
      obtain ⟨h1, -⟩ := h
      injection h1 with h1
      subst h1
      constructor
      · intro mask hm hd
        rw [lookup_DCF_init]
      · intro b hm hb hstream
        exact absurd hstream hs

/-- A frame whose FilterMask lacks the DeepCoreFilter_13 entry while a
top-level DeepCoreFilter_13 field is present. -/
def maskFrame : Frame :=
  { header := inIceHeader,
    is_mc := false, is_noise := false,
    filterMask := some [("CascadeFilter_13", true)],
    deepCoreFilter13 := some true,
    l3_oscNext := none, l4_oscNext := none, l5_oscNext := none,
    l6_oscNext := none, l7_oscNext := none,
    mcInIcePrimary := none, i3MCTree := none,
    interactionType := none, genieY := none }

/-- Witness for claim C10: with the mask present but missing the entry, the
output field stays at the padding value despite the top-level field. -/
theorem claim_C10_witness :
    ∃ out, truthExtract demoCtx0 demoExtractor maskFrame 5 =
      (.ok out, maskFrame) ∧
      List.lookup "DeepCoreFilter_13" out = some (qVal 5) := by
  refine ⟨_, rfl, ?_⟩
  exact (claim_C10_filtermask_precedence demoCtx0 demoExtractor maskFrame 5
    _ maskFrame rfl).1 [("CascadeFilter_13", true)] rfl rfl

theorem padRel_muonUpdate {p q : ℚ} {o₁ o₂ : Output} (mf : MuonFinal)
    (h : PadRel p q o₁ o₂) :
    PadRel p q (updAll o₁ (muonUpdateList mf))
      (updAll o₂ (muonUpdateList mf)) := by
  simp only [muonUpdateList, updAll, List.foldl]
  exact padRel_setKey_eq _ _ (padRel_setKey_eq _ _
    (padRel_setKey_eq _ _ (padRel_setKey_eq _ _ h)))

theorem padRel_mcUpdate {p q : ℚ} {o₁ o₂ : Output} (pr : Particle)
    (it el et inel d₁ d₂ : ℚ) (hbase : PadRel p q o₁ o₂)
    (hdb : (d₁ = p ∧ d₂ = q) ∨ d₁ = d₂) :
    PadRel p q (updAll o₁ (mcUpdateList pr it el d₁ et inel))
      (updAll o₂ (mcUpdateList pr it el d₂ et inel)) := by
  simp only [mcUpdateList, updAll, List.foldl]
  apply padRel_setKey_eq
  apply padRel_setKey_eq
  rcases hdb with ⟨h1, h2⟩ | h1
  · subst h1
    subst h2
    apply padRel_setKey_pad
    apply padRel_setKey_eq
    apply padRel_setKey_eq
    apply padRel_setKey_eq
    apply padRel_setKey_eq
    apply padRel_setKey_eq
    apply padRel_setKey_eq
    apply padRel_setKey_eq
    apply padRel_setKey_eq
    apply padRel_setKey_eq
    exact hbase
  · subst h1
    apply padRel_setKey_eq
    apply padRel_setKey_eq
    apply padRel_setKey_eq
    apply padRel_setKey_eq
    apply padRel_setKey_eq
    apply padRel_setKey_eq
    apply padRel_setKey_eq
    apply padRel_setKey_eq
    apply padRel_setKey_eq
    apply padRel_setKey_eq
    exact hbase

theorem pidIs13_mcUpdate_eq (o₁ o₂ : Output) (pr : Particle)
    (it el et inel d₁ d₂ : ℚ) :
    pidIs13 (updAll o₁ (mcUpdateList pr it el d₁ et inel)) =
      pidIs13 (updAll o₂ (mcUpdateList pr it el d₂ et inel)) := by
  unfold pidIs13
  rw [lookup_mcUpdate_pid, lookup_mcUpdate_pid]

theorem padRel_muonPhase (m : MathCtx) (bo : Borders) (p q : ℚ)
    (B₁ B₂ : Output) (pr : Particle) (it el et inel d₁ d₂ : ℚ)
    (out₁ out₂ : Output) (f1 f2 fra frb : Frame)
    (hbase : PadRel p q B₁ B₂)
    (hdb : (d₁ = p ∧ d₂ = q) ∨ d₁ = d₂)
    (h₁ : (if pidIs13 (updAll B₁ (mcUpdateList pr it el d₁ et inel)) = true
        then
        (Except.ok (updAll
          (setKey (updAll B₁ (mcUpdateList pr it el d₁ et inel))
            "track_length" (qVal pr.length))
          (muonUpdateList (muonStopped m
            (setKey (updAll B₁ (mcUpdateList pr it el d₁ et inel))
              "track_length" (qVal pr.length)) bo 100 100))), fra)
        else (Except.ok (updAll B₁ (mcUpdateList pr it el d₁ et inel)), fra))
      = ((Except.ok out₁ : Except Err Output), f1))
    (h₂ : (if pidIs13 (updAll B₂ (mcUpdateList pr it el d₂ et inel)) = true
        then
        (Except.ok (updAll
          (setKey (updAll B₂ (mcUpdateList pr it el d₂ et inel))
            "track_length" (qVal pr.length))
          (muonUpdateList (muonStopped m
            (setKey (updAll B₂ (mcUpdateList pr it el d₂ et inel))
              "track_length" (qVal pr.length)) bo 100 100))), frb)
        else (Except.ok (updAll B₂ (mcUpdateList pr it el d₂ et inel)), frb))
      = ((Except.ok out₂ : Except Err Output), f2)) :
    PadRel p q out₁ out₂ := by
  have hX : PadRel p q (updAll B₁ (mcUpdateList pr it el d₁ et inel))
      (updAll B₂ (mcUpdateList pr it el d₂ et inel)) :=
    padRel_mcUpdate pr it el et inel d₁ d₂ hbase hdb
  have hpideq := pidIs13_mcUpdate_eq B₁ B₂ pr it el et inel d₁ d₂
  split at h₁
  · rename_i hc
    rw [hpideq] at hc
    rw [if_pos hc] at h₂
    rw [Prod.mk.injEq] at h₁ h₂
    obtain ⟨ha, -⟩ := h₁
    obtain ⟨hb, -⟩ := h₂
    injection ha with ha
    injection hb with hb
    subst ha
    subst hb
    rw [muonStopped_of_mcUpdate, muonStopped_of_mcUpdate]
    exact padRel_muonUpdate _ (padRel_setKey_eq _ _ hX)
  · rename_i hc
    rw [hpideq] at hc
    rw [if_neg hc] at h₂
    rw [Prod.mk.injEq] at h₁ h₂
    obtain ⟨ha, -⟩ := h₁
    obtain ⟨hb, -⟩ := h₂
    injection ha with ha
    injection hb with hb
    subst ha
    subst hb
    exact hX

theorem lookup_mcUpdate_it (o : Output) (pr : Particle)
    (itv elv dbv etv inelv : ℚ) :
    List.lookup "interaction_type"
      (updAll o (mcUpdateList pr itv elv dbv etv inelv)) =
      some (qVal itv) := by
  rw [lookup_updAll]; rfl

theorem lookup_mcUpdate_el (o : Output) (pr : Particle)
    (itv elv dbv etv inelv : ℚ) :
    List.lookup "elasticity"
      (updAll o (mcUpdateList pr itv elv dbv etv inelv)) =
      some (qVal elv) := by
  rw [lookup_updAll]; rfl

theorem lookup_muonUpdate_it (o : Output) (mf : MuonFinal) :
    List.lookup "interaction_type" (updAll o (muonUpdateList mf)) =
      List.lookup "interaction_type" o := by
  rw [lookup_updAll]; rfl

theorem lookup_muonUpdate_el (o : Output) (mf : MuonFinal) :
    List.lookup "elasticity" (updAll o (muonUpdateList mf)) =
      List.lookup "elasticity" o := by
  rw [lookup_updAll]; rfl

theorem getPrimaryEtc_components (fr : Frame) (st : String) (pad : ℚ)
    (prim? : Option Particle) (it el : ℚ)
    (h : getPrimaryEtc fr st pad = .ok (prim?, it, el)) :
    it = interactionTypeOf fr pad ∧ el = elasticityOf fr pad := by
  unfold getPrimaryEtc at h
  split at h
  · cases hres : resolvePrimary fr with
    | error e =>
      rw [hres] at h
      cases h
    | ok pp =>
      rw [hres] at h
      simp only [Except.ok.injEq, Prod.mk.injEq] at h
      exact ⟨h.2.1.symm, h.2.2.symm⟩
  · simp only [Except.ok.injEq, Prod.mk.injEq] at h
    exact ⟨h.2.1.symm, h.2.2.symm⟩

theorem lookup_itel_muonPhase (m : MathCtx) (bo : Borders) (B : Output)
    (pr : Particle) (it el et inel d : ℚ) (out : Output) (f1 fra : Frame)
    (h : (if pidIs13 (updAll B (mcUpdateList pr it el d et inel)) = true
        then
        (Except.ok (updAll
          (setKey (updAll B (mcUpdateList pr it el d et inel))
            "track_length" (qVal pr.length))
          (muonUpdateList (muonStopped m
            (setKey (updAll B (mcUpdateList pr it el d et inel))
              "track_length" (qVal pr.length)) bo 100 100))), fra)
        else (Except.ok (updAll B (mcUpdateList pr it el d et inel)), fra))
      = ((Except.ok out : Except Err Output), f1)) :
    List.lookup "interaction_type" out = some (qVal it) ∧
    List.lookup "elasticity" out = some (qVal el) := by
  split at h
  · rw [Prod.mk.injEq] at h
    obtain ⟨ha, -⟩ := h
    injection ha with ha
    subst ha
    constructor
    · rw [lookup_muonUpdate_it, lookup_setKey_ne _ _ _ _ (by decide),
        lookup_mcUpdate_it]
    · rw [lookup_muonUpdate_el, lookup_setKey_ne _ _ _ _ (by decide),
        lookup_mcUpdate_el]
  · rw [Prod.mk.injEq] at h
    obtain ⟨ha, -⟩ := h
    injection ha with ha
    subst ha
    exact ⟨lookup_mcUpdate_it _ _ _ _ _ _ _,
      lookup_mcUpdate_el _ _ _ _ _ _ _⟩

/-- Claim C7: for two runs of extraction on the same record with padding
values p and q, every field either carries the respective padding value in
each run (the default-filled fields, changing from p to q) or is identical
in both runs; moreover, whenever the Monte-Carlo truth phase runs, the
interaction-type and elasticity fields are, in BOTH runs, exactly the
source-map reads defaulted to the inner -1 of
`_get_primary_particle_interaction_type_and_elasticity` (the call passes no
padding argument) — in particular, when the respective source map is absent
both runs store -1 there, never the caller's padding value. -/
theorem claim_C7_padding_parameterization (m : MathCtx)
    (ex : I3TruthExtractorState) (fr : Frame) (p q : ℚ)
    (out₁ out₂ : Output) (f1 f2 : Frame)
    (h₁ : truthExtract m ex fr p = (.ok out₁, f1))
    (h₂ : truthExtract m ex fr q = (.ok out₂, f2)) :
    (∀ k : String,
      (List.lookup k out₁ = some (qVal p) ∧
       List.lookup k out₂ = some (qVal q)) ∨
      List.lookup k out₁ = List.lookup k out₂) ∧
    (fr.header.sub_event_stream = "InIceSplit" → fr.is_mc = true →
      fr.is_noise = false →
      List.lookup "interaction_type" out₁ =
        some (qVal (interactionTypeOf fr (-1))) ∧
      List.lookup "interaction_type" out₂ =
        some (qVal (interactionTypeOf fr (-1))) ∧
      List.lookup "elasticity" out₁ =
        some (qVal (elasticityOf fr (-1))) ∧
      List.lookup "elasticity" out₂ =
        some (qVal (elasticityOf fr (-1))) ∧
      (fr.interactionType = none →
        List.lookup "interaction_type" out₁ = some (qVal (-1)) ∧
        List.lookup "interaction_type" out₂ = some (qVal (-1))) ∧
      (fr.genieY = none →
        List.lookup "elasticity" out₁ = some (qVal (-1)) ∧
        List.lookup "elasticity" out₂ = some (qVal (-1)))) := by
  show PadRel p q out₁ out₂ ∧ _
  cases hf : findDataType fr.is_mc ex.i3File with
  | error e => simp [truthExtract, hf] at h₁
  | ok st =>
    simp only [truthExtract, hf] at h₁ h₂
    by_cases hs : fr.header.sub_event_stream = "InIceSplit"
    · rw [if_neg (by simp [hs])] at h₁ h₂
      have hbase : PadRel p q
          (applyOscNext fr (applyFilterMask fr (initOutput fr st p)))
          (applyOscNext fr (applyFilterMask fr (initOutput fr st q))) :=
        padRel_applyOscNext fr (padRel_applyFilterMask fr
          (padRel_initOutput fr st p q))
      by_cases hmc : (fr.is_mc && !fr.is_noise) = true
      · rw [if_pos hmc] at h₁ h₂
        cases hprim : getPrimaryEtc fr st (-1) with
        | error e => simp [hprim] at h₁
        | ok tup =>
          obtain ⟨prim?, it, el⟩ := tup
          simp only [hprim] at h₁ h₂
          cases htrack : getPrimaryTrackEnergyAndInelasticity fr with
          | error e => simp [htrack] at h₁
          | ok r =>
            obtain ⟨et, inel⟩ := r
            simp only [htrack] at h₁ h₂
            cases prim? with
            | none => simp at h₁
            | some pr =>
              rcases dbang_pairs m fr p q with ⟨hp1, hq1⟩ | heq
              · have pair1 : extractDbangDecayLength m fr p =
                    (.ok p, fr) := by
                  have hfr := dbang_frame m fr p
                  cases hx : extractDbangDecayLength m fr p with
                  | mk a b =>
                    rw [hx] at hp1 hfr
                    simp only at hp1 hfr
                    rw [hp1, hfr]
                have pair2 : extractDbangDecayLength m fr q =
                    (.ok q, fr) := by
                  have hfr := dbang_frame m fr q
                  cases hx : extractDbangDecayLength m fr q with
                  | mk a b =>
                    rw [hx] at hq1 hfr
                    simp only at hq1 hfr
                    rw [hq1, hfr]
                simp only [pair1] at h₁
                simp only [pair2] at h₂
                refine ⟨padRel_muonPhase m ex.borders p q _ _ pr it el et
                  inel p q out₁ out₂ f1 f2 fr fr hbase (Or.inl ⟨rfl, rfl⟩)
                  h₁ h₂, fun _ _ _ => ?_⟩
                obtain ⟨hit, hel⟩ :=
                  getPrimaryEtc_components fr st (-1) (some pr) it el hprim
                obtain ⟨hit1, hel1⟩ := lookup_itel_muonPhase m ex.borders _
                  pr it el et inel p out₁ f1 fr h₁
                obtain ⟨hit2, hel2⟩ := lookup_itel_muonPhase m ex.borders _
                  pr it el et inel q out₂ f2 fr h₂
                refine ⟨by rw [hit1, hit], by rw [hit2, hit],
                  by rw [hel1, hel], by rw [hel2, hel], ?_, ?_⟩
                · intro habs
                  constructor
                  · rw [hit1, hit]; simp [interactionTypeOf, habs]
                  · rw [hit2, hit]; simp [interactionTypeOf, habs]
                · intro habs
                  constructor
                  · rw [hel1, hel]; simp [elasticityOf, habs]
                  · rw [hel2, hel]; simp [elasticityOf, habs]
              · cases hv : (extractDbangDecayLength m fr p).1 with
                | error e =>
                  have pair1 : extractDbangDecayLength m fr p =
                      (.error e, fr) := by
                    have hfr := dbang_frame m fr p
                    cases hx : extractDbangDecayLength m fr p with
                    | mk a b =>
                      rw [hx] at hv hfr
                      simp only at hv hfr
                      rw [hv, hfr]
                  simp [pair1] at h₁
                | ok d =>
                  have hv2 : (extractDbangDecayLength m fr q).1 =
                      .ok d := by
                    rw [← heq]
                    exact hv
                  have pair1 : extractDbangDecayLength m fr p =
                      (.ok d, fr) := by
                    have hfr := dbang_frame m fr p
                    cases hx : extractDbangDecayLength m fr p with
                    | mk a b =>
                      rw [hx] at hv hfr
                      simp only at hv hfr
                      rw [hv, hfr]
                  have pair2 : extractDbangDecayLength m fr q =
                      (.ok d, fr) := by
                    have hfr := dbang_frame m fr q
                    cases hx : extractDbangDecayLength m fr q with
                    | mk a b =>
                      rw [hx] at hv2 hfr
                      simp only at hv2 hfr
                      rw [hv2, hfr]
                  simp only [pair1] at h₁
                  simp only [pair2] at h₂
                  refine ⟨padRel_muonPhase m ex.borders p q _ _ pr it el
                    et inel d d out₁ out₂ f1 f2 fr fr hbase (Or.inr rfl)
                    h₁ h₂, fun _ _ _ => ?_⟩
                  obtain ⟨hit, hel⟩ := getPrimaryEtc_components fr st (-1)
                    (some pr) it el hprim
                  obtain ⟨hit1, hel1⟩ := lookup_itel_muonPhase m
                    ex.borders _ pr it el et inel d out₁ f1 fr h₁
                  obtain ⟨hit2, hel2⟩ := lookup_itel_muonPhase m
                    ex.borders _ pr it el et inel d out₂ f2 fr h₂
                  refine ⟨by rw [hit1, hit], by rw [hit2, hit],
                    by rw [hel1, hel], by rw [hel2, hel], ?_, ?_⟩
                  · intro habs
                    constructor
                    · rw [hit1, hit]; simp [interactionTypeOf, habs]
                    · rw [hit2, hit]; simp [interactionTypeOf, habs]
                  · intro habs
                    constructor
                    · rw [hel1, hel]; simp [elasticityOf, habs]
                    · rw [hel2, hel]; simp [elasticityOf, habs]
      · rw [if_neg hmc] at h₁ h₂
        rw [Prod.mk.injEq] at h₁ h₂
        obtain ⟨ha, -⟩ := h₁
        obtain ⟨hb, -⟩ := h₂
        injection ha with ha
        injection hb with hb
        subst ha
        subst hb
        exact ⟨hbase, fun _ hmc' hnoise' =>
          absurd (by rw [hmc', hnoise']; rfl) hmc⟩
    · rw [if_pos hs] at h₁ h₂
      rw [Prod.mk.injEq] at h₁ h₂
      obtain ⟨ha, -⟩ := h₁
      obtain ⟨hb, -⟩ := h₂
      injection ha with ha
      injection hb with hb
      subst ha
      subst hb
      exact ⟨padRel_initOutput fr st p q, fun hs' => absurd hs' hs⟩

/-- Witness for claim C7: two runs with padding 5 and 7 on a concrete
Monte-Carlo InIceSplit muon event whose I3GENIEResultDict is absent, so
the elasticity field exercises the inner -1 default in both runs. -/
theorem claim_C7_witness :
    ∃ out₁ out₂,
      truthExtract demoCtx0 demoExtractor muonFrame 5 =
        (.ok out₁, muonFrame) ∧
      truthExtract demoCtx0 demoExtractor muonFrame 7 =
        (.ok out₂, muonFrame) ∧
      ((∀ k : String,
        (List.lookup k out₁ = some (qVal 5) ∧
         List.lookup k out₂ = some (qVal 7)) ∨
        List.lookup k out₁ = List.lookup k out₂) ∧
       (muonFrame.header.sub_event_stream = "InIceSplit" →
        muonFrame.is_mc = true → muonFrame.is_noise = false →
        List.lookup "interaction_type" out₁ =
          some (qVal (interactionTypeOf muonFrame (-1))) ∧
        List.lookup "interaction_type" out₂ =
          some (qVal (interactionTypeOf muonFrame (-1))) ∧
        List.lookup "elasticity" out₁ =
          some (qVal (elasticityOf muonFrame (-1))) ∧
        List.lookup "elasticity" out₂ =
          some (qVal (elasticityOf muonFrame (-1))) ∧
        (muonFrame.interactionType = none →
          List.lookup "interaction_type" out₁ = some (qVal (-1)) ∧
          List.lookup "interaction_type" out₂ = some (qVal (-1))) ∧
        (muonFrame.genieY = none →
          List.lookup "elasticity" out₁ = some (qVal (-1)) ∧
          List.lookup "elasticity" out₂ = some (qVal (-1))))) := by
  refine ⟨_, _, rfl, rfl, ?_⟩
  exact claim_C7_padding_parameterization demoCtx0 demoExtractor muonFrame
    5 7 _ _ muonFrame muonFrame rfl rfl
